import Mathlib

/-!
Verification of the CombustionProj3 scripts (`DetProperties.py`,
`ZNDDetPostShock.py`, `demo_CJstate.py`) against their specification.

The scripts are straight-line parameter sweeps that delegate all heavy
numerics to the external `sdtoolbox`/`cantera` library.  We embed them
shallowly: Python floats become exact rationals (`ℚ`), the external
library becomes a record of pure functions (`SDLib`), gas objects become
records of the scalar fields the scripts read, numpy helpers are given
their documented meaning, and the scripts' observable behaviour (stdout
prints, plot-data consumption, figure files) becomes an explicit list of
effects.  A second record (`SDLibE`) models the library with fallible
(`Except`) calls for the error-propagation claims.
-/

set_option autoImplicit false

/-- Composition mapping `q = dict(C3H8=…, O2=…, N2=…)` built by the scripts. -/
structure Comp where
  C3H8 : ℚ
  O2 : ℚ
  N2 : ℚ
deriving DecidableEq

/-- A gas object as the scripts see it: they only ever read the scalar
properties `T`, `P`, `density`, `entropy_mass`; we also carry the
composition it was created with as a proxy for the full internal state. -/
structure Gas where
  T : ℚ
  P : ℚ
  density : ℚ
  entropy_mass : ℚ
  X : Comp
deriving DecidableEq

/-- Return value of `CJspeed`: the speed, and with `fullOutput=True` also
`R2` and the plot data (the latter is only ever printed, so a scalar
stand-in suffices). -/
structure CJResult where
  speed : ℚ
  R2 : ℚ
  plotData : ℚ
deriving DecidableEq

/-- One external library call, recorded with the exact arguments the
script passed and (for `CJspeed`) the value returned. -/
inductive CallEvent where
  | mkSol (mech : String) (T P : ℚ) (q : Comp)
  | sndEq (g : Gas)
  | sndFr (g : Gas)
  | cj (P T : ℚ) (q : Comp) (mech : String) (fullOutput : Bool) (ret : ℚ)
  | psEq (speed P T : ℚ) (q : Comp) (mech : String)
  | psFr (speed P T : ℚ) (q : Comp) (mech : String)
  | advance (t : ℚ)
deriving DecidableEq

/-- One observable effect of a script: a print to stdout, handing a data
series to the plotting library, saving a figure file, or displaying it. -/
inductive Effect where
  | printStr (s : String)
  | printComp (q : Comp)
  | printQ (tag : String) (vals : List ℚ)
  | plot (xs ys : List ℚ)
  | savefig (path : String)
  | showFig
deriving DecidableEq

/-- The external thermochemistry library, modelled as pure functions:
`ct.Solution(mech)` followed by the `TPX` assignment, the two sound-speed
functions, `CJspeed`, the two post-shock solvers, the temperature of an
ideal-gas constant-pressure reactor (initialised from a gas state) after
advancing its network to time `t`, and `np.power`. -/
structure SDLib where
  Solution : String → ℚ → ℚ → Comp → Gas
  soundspeed_eq : Gas → ℚ
  soundspeed_fr : Gas → ℚ
  CJspeed : ℚ → ℚ → Comp → String → Bool → CJResult
  PostShock_eq : ℚ → ℚ → ℚ → Comp → String → Gas
  PostShock_fr : ℚ → ℚ → ℚ → Comp → String → Gas
  reactorTemp : Gas → ℚ → ℚ
  npPower : ℚ → ℚ → ℚ

/-- `ct.one_atm` (Pa). -/
def one_atm : ℚ := 101325

/-- `np.linspace a b n`: `n` evenly spaced points from `a` to `b`
inclusive. -/
def npLinspace (a b : ℚ) (n : ℕ) : List ℚ :=
  (List.range n).map fun i : ℕ => a + (b - a) * (i : ℚ) / ((n : ℚ) - 1)

/-- `np.zeros_like l`. -/
def npZerosLike (l : List ℚ) : List ℚ := l.map fun _ => 0

/-- `np.arange n` as a list of rationals. -/
def npArange (n : ℕ) : List ℚ := (List.range n).map fun i : ℕ => (i : ℚ)

/-- `np.stack((a, b, c))`: a 3-row matrix. -/
def npStack3 (a b c : List ℚ) : List (List ℚ) := [a, b, c]

/-- 2-d array read `m[i, j]` (out-of-range reads default to `0`). -/
def get2 (m : List (List ℚ)) (i j : ℕ) : ℚ := (m.getD i []).getD j 0

/-- 2-d array write `m[i, j] = v` (no-op out of range, as the scripts
never index out of range). -/
def set2 (m : List (List ℚ)) (i j : ℕ) (v : ℚ) : List (List ℚ) :=
  m.set i ((m.getD i []).set j v)

/-- Row slice `m[i, :]`. -/
def getRow (m : List (List ℚ)) (i : ℕ) : List ℚ := m.getD i []

namespace DetProperties

/-- `inittemp = np.array([300, 300, 600])`. -/
def inittemp : List ℚ := [300, 300, 600]

/-- `initpress = np.array([100, 500, 100])`. -/
def initpress : List ℚ := [100, 500, 100]

/-- `compositions = np.linspace(2.2, 9.2, 30)`. -/
def compositions : List ℚ := npLinspace 2.2 9.2 30

/-- All local values of one iteration of the sweep body of
`DetProperties.py`, together with the prints it emits and the library
calls it makes, translated line by line from the source. -/
structure IterOut where
  q : Comp
  P1 : ℚ
  T1 : ℚ
  gas_initial : Gas
  rho_1 : ℚ
  csound : ℚ
  cj_speed : ℚ
  R2 : ℚ
  gas : Gas
  ae : ℚ
  af : ℚ
  rho_2 : ℚ
  gammae : ℚ
  gammaf : ℚ
  w2 : ℚ
  u2 : ℚ
  D : ℚ
  Dcalc : ℚ
  mach : ℚ
  effects : List Effect
  calls : List CallEvent

/-- The loop body of `DetProperties.py` for one `(inittemp[IC],
initpress[IC], propane_comp)` triple, up to (but not including) the
array stores. -/
def detIter (lib : SDLib) (Tpre Ppre propane_comp : ℚ) : IterOut :=
  let HC_comp := propane_comp
  let O_comp := (100 - HC_comp) * 0.21
  let N2_comp := (100 - HC_comp) * 0.79
  let P1 := Ppre * 1000
  let T1 := Tpre
  let q : Comp := ⟨HC_comp, O_comp, N2_comp⟩
  let mech := "gri30.cti"
  let gas_initial := lib.Solution mech T1 P1 q
  let rho_1 := gas_initial.density
  let csound := lib.soundspeed_eq gas_initial
  let r := lib.CJspeed P1 T1 q mech true
  let cj_speed := r.speed
  let gas := lib.PostShock_eq cj_speed P1 T1 q mech
  let ae := lib.soundspeed_eq gas
  let af := lib.soundspeed_fr gas
  let rho_2 := gas.density
  let gammae := ae ^ 2 * rho_2 / gas.P
  let gammaf := af ^ 2 * rho_2 / gas.P
  let w2 := cj_speed * rho_1 / rho_2
  let u2 := cj_speed - w2
  let D := cj_speed
  let Dcalc := (1.29 + 1) / 1.29 * lib.npPower (1.29 * 8314 * 2700 / 28) 0.5
  let mach := D / csound
  { q := q, P1 := P1, T1 := T1, gas_initial := gas_initial, rho_1 := rho_1,
    csound := csound, cj_speed := cj_speed, R2 := r.R2, gas := gas,
    ae := ae, af := af, rho_2 := rho_2, gammae := gammae, gammaf := gammaf,
    w2 := w2, u2 := u2, D := D, Dcalc := Dcalc, mach := mach,
    effects :=
      [Effect.printStr ("\nCJ computation for " ++ mech ++ " with composition:"),
       Effect.printComp q,
       Effect.printQ "Initial conditions: P1 = %.3e Pa & T1 = %.2f K" [P1, T1],
       Effect.printQ "CJ Speed   %.1f m/s" [cj_speed],
       Effect.printStr "CJ State",
       Effect.printQ "   Pressure   %.3e Pa" [gas.P],
       Effect.printQ "   Temperature  %.1f K" [gas.T],
       Effect.printQ "   Density  %.3f kg/m3" [gas.density],
       Effect.printQ "   Entropy  %.3e J/K" [gas.entropy_mass],
       Effect.printQ "   w2 (wave frame) %.1f m/s" [w2],
       Effect.printQ "   u2 (lab frame) %.1f m/s" [u2],
       Effect.printQ "   c2 frozen %.1f m/s" [af],
       Effect.printQ "   c2 equilbrium %.1f m/s" [ae],
       Effect.printQ "   gamma2 frozen %.3f " [gammaf],
       Effect.printQ "   gamma2 equilbrium %.3f " [gammae],
       Effect.printQ "   Speed of sound %.3f " [csound],
       Effect.printQ "   Det Speed %.3f " [D],
       Effect.printQ "   Calc 2700K Det Speed %.3f " [Dcalc],
       Effect.printQ "   Mach Number %.3f " [mach],
       Effect.printQ "   Density 1:, Density 2:" [rho_1, rho_2]],
    calls :=
      [CallEvent.mkSol mech T1 P1 q,
       CallEvent.sndEq gas_initial,
       CallEvent.cj P1 T1 q mech true r.speed,
       CallEvent.psEq cj_speed P1 T1 q mech,
       CallEvent.sndEq gas,
       CallEvent.sndFr gas] }

end DetProperties

/-- A constant instantiation of the library model, used to evaluate the
scripts on concrete data. -/
def constLib : SDLib where
  Solution := fun _ _ _ _ => ⟨1, 1, 1, 1, ⟨1, 1, 1⟩⟩
  soundspeed_eq := fun _ => 1
  soundspeed_fr := fun _ => 1
  CJspeed := fun _ _ _ _ _ => ⟨1, 1, 1⟩
  PostShock_eq := fun _ _ _ _ _ => ⟨1, 1, 1, 1, ⟨1, 1, 1⟩⟩
  PostShock_fr := fun _ _ _ _ _ => ⟨1, 1, 1, 1, ⟨1, 1, 1⟩⟩
  reactorTemp := fun _ _ => 1000
  npPower := fun _ _ => 1

namespace DemoCJstate

/-- `inittemp = 300` (a Python int, also used for the figure name). -/
def inittemp : ℕ := 300

/-- `initpress = 100`. -/
def initpress : ℕ := 100

/-- `compositions = np.linspace(2.2, 9.2, 12)`. -/
def compositions : List ℚ := npLinspace 2.2 9.2 12

/-- All local values of one iteration of the sweep of `demo_CJstate.py`,
with its prints and library calls, translated line by line. -/
structure IterOut where
  q : Comp
  P1 : ℚ
  T1 : ℚ
  gas_initial : Gas
  rho_1 : ℚ
  cj_speed : ℚ
  R2 : ℚ
  gas : Gas
  ae : ℚ
  af : ℚ
  rho_2 : ℚ
  gammae : ℚ
  gammaf : ℚ
  w2 : ℚ
  u2 : ℚ
  effects : List Effect
  calls : List CallEvent

/-- The loop body of `demo_CJstate.py` for one `propane_comp`, up to (but
not including) the `detonation_speed[idx]` store. -/
def demoIter (lib : SDLib) (propane_comp : ℚ) : IterOut :=
  let HC_comp := propane_comp
  let O_comp := (100 - HC_comp) * 0.21
  let N2_comp := (100 - HC_comp) * 0.79
  let P1 := (initpress : ℚ) * 1000
  let T1 := (inittemp : ℚ)
  let q : Comp := ⟨HC_comp, O_comp, N2_comp⟩
  let mech := "gri30.cti"
  let gas_initial := lib.Solution mech T1 P1 q
  let rho_1 := gas_initial.density
  let r := lib.CJspeed P1 T1 q mech true
  let cj_speed := r.speed
  let gas := lib.PostShock_eq cj_speed P1 T1 q mech
  let ae := lib.soundspeed_eq gas
  let af := lib.soundspeed_fr gas
  let rho_2 := gas.density
  let gammae := ae ^ 2 * rho_2 / gas.P
  let gammaf := af ^ 2 * rho_2 / gas.P
  let w2 := cj_speed * rho_1 / rho_2
  let u2 := cj_speed - w2
  { q := q, P1 := P1, T1 := T1, gas_initial := gas_initial, rho_1 := rho_1,
    cj_speed := cj_speed, R2 := r.R2, gas := gas, ae := ae, af := af,
    rho_2 := rho_2, gammae := gammae, gammaf := gammaf, w2 := w2, u2 := u2,
    effects :=
      [Effect.printQ "[cj_speed, R2, plot_data]" [cj_speed, r.R2, r.plotData],
       Effect.printStr ("\nCJ computation for " ++ mech ++ " with composition:"),
       Effect.printComp q,
       Effect.printQ "Initial conditions: P1 = %.3e Pa & T1 = %.2f K" [P1, T1],
       Effect.printQ "CJ Speed   %.1f m/s" [cj_speed],
       Effect.printStr "CJ State",
       Effect.printQ "   Pressure   %.3e Pa" [gas.P],
       Effect.printQ "   Temperature  %.1f K" [gas.T],
       Effect.printQ "   Density  %.3f kg/m3" [gas.density],
       Effect.printQ "   Entropy  %.3e J/K" [gas.entropy_mass],
       Effect.printQ "   w2 (wave frame) %.1f m/s" [w2],
       Effect.printQ "   u2 (lab frame) %.1f m/s" [u2],
       Effect.printQ "   c2 frozen %.1f m/s" [af],
       Effect.printQ "   c2 equilbrium %.1f m/s" [ae],
       Effect.printQ "   gamma2 frozen %.3f " [gammaf],
       Effect.printQ "   gamma2 equilbrium %.3f " [gammae]],
    calls :=
      [CallEvent.mkSol mech T1 P1 q,
       CallEvent.cj P1 T1 q mech true r.speed,
       CallEvent.psEq cj_speed P1 T1 q mech,
       CallEvent.sndEq gas,
       CallEvent.sndFr gas] }

/-- `detonation_speed` after the sweep: `np.zeros_like(compositions)`
with `detonation_speed[idx] = cj_speed` on each iteration. -/
def demoSpeeds (lib : SDLib) : List ℚ :=
  (List.enum compositions).foldl
    (fun a p => a.set p.1 (demoIter lib p.2).cj_speed)
    (npZerosLike compositions)

/-- `figname = 'Figures/DetSpeedT' + str(inittemp) + 'KP' + str(initpress) + 'kPa.png'`. -/
def figname : String :=
  "Figures/DetSpeedT" ++ toString inittemp ++ "KP" ++ toString initpress ++ "kPa.png"

/-- The full effect sequence of `demo_CJstate.py`: the loop prints, then
the plot of the accumulated speeds, the figure save, and the display. -/
def demoRunEffects (lib : SDLib) : List Effect :=
  (compositions.map fun c => (demoIter lib c).effects).flatten ++
    [Effect.plot compositions (demoSpeeds lib),
     Effect.savefig figname,
     Effect.showFig]

end DemoCJstate

namespace ZND

/-- `inittemp, initpress = (300, 1)`. -/
def inittemp : ℚ := 300

/-- Initial pressure in atm. -/
def initpress : ℚ := 1

/-- `HC_comp = 0.092`. -/
def HC_comp : ℚ := 0.092

/-- `q = dict(C3H8=HC_comp, O2=(1-HC_comp)*0.21, N2=(1-HC_comp)*0.79)`. -/
def q : Comp := ⟨HC_comp, (1 - HC_comp) * 0.21, (1 - HC_comp) * 0.79⟩

/-- `mech = 'gri30.cti'`. -/
def mech : String := "gri30.cti"

/-- `n_steps = 300000`. -/
def n_steps : ℕ := 300000

/-- `dt = 0.25 / n_steps`. -/
def dt : ℚ := 0.25 / (n_steps : ℚ)

/-- `timesteps = (np.arange(n_steps) + 1) * dt`. -/
def timesteps : List ℚ := (npArange n_steps).map fun x => (x + 1) * dt

/-- The ignition-scan loop of `ZNDDetPostShock.py`: advance to each time
in turn, record it as `det_time`, and break as soon as the reactor
temperature exceeds the threshold.  Returns the final `det_time` (the
initial accumulator `0` is returned only on an empty time list). -/
def scanLoop (temp : ℚ → ℚ) (thresh : ℚ) : List ℚ → ℚ → ℚ
  | [], det_time => det_time
  | t :: ts, _ => if thresh < temp t then t else scanLoop temp thresh ts t

/-- The times actually handed to `sim1.advance` by the scan (the prefix
of the time grid up to and including the break step). -/
def scanTimes (temp : ℚ → ℚ) (thresh : ℚ) : List ℚ → List ℚ
  | [] => []
  | t :: ts => if thresh < temp t then [t] else t :: scanTimes temp thresh ts

/-- `preshockgas`: solution set to the initial conditions. -/
def preshockgas (lib : SDLib) : Gas :=
  lib.Solution mech inittemp (initpress * one_atm) q

/-- `cj_speed = CJspeed(initpress*ct.one_atm, inittemp, q, mech, fullOutput=False)`. -/
def cj_speed (lib : SDLib) : ℚ :=
  (lib.CJspeed (initpress * one_atm) inittemp q mech false).speed

/-- `postshockgas = PostShock_fr(cj_speed, initpress*ct.one_atm, inittemp, q, mech)`. -/
def postshockgas (lib : SDLib) : Gas :=
  lib.PostShock_fr (cj_speed lib) (initpress * one_atm) inittemp q mech

/-- `det_time` as printed at the end of the script. -/
def det_time (lib : SDLib) : ℚ :=
  scanLoop (lib.reactorTemp (postshockgas lib)) ((postshockgas lib).T + 150)
    timesteps 0

/-- The full effect sequence of `ZNDDetPostShock.py` (prints only). -/
def zndRunEffects (lib : SDLib) : List Effect :=
  [Effect.printStr ("\nCJ computation for " ++ mech ++ " with composition:"),
   Effect.printComp q,
   Effect.printQ "Initial conditions: P1 = %.3e atm & T1 = %.2f K" [initpress, inittemp],
   Effect.printQ "    PostShock Pressure:  atm" [(postshockgas lib).P / 101325],
   Effect.printQ "    PostShock Temperature:  K" [(postshockgas lib).T],
   Effect.printQ "    PostShock Autoignition Delay:  s" [det_time lib]]

/-- The full call sequence of `ZNDDetPostShock.py`. -/
def zndRunCalls (lib : SDLib) : List CallEvent :=
  [CallEvent.mkSol mech inittemp (initpress * one_atm) q,
   CallEvent.cj (initpress * one_atm) inittemp q mech false (cj_speed lib),
   CallEvent.psFr (cj_speed lib) (initpress * one_atm) inittemp q mech] ++
    (scanTimes (lib.reactorTemp (postshockgas lib)) ((postshockgas lib).T + 150)
        timesteps).map CallEvent.advance

end ZND

namespace DetProperties

/-- `property_array = np.zeros_like(compositions)`. -/
def property_array : List ℚ := npZerosLike compositions

/-- The seven result arrays of `DetProperties.py`. -/
structure DetArrays where
  detionation_speed : List (List ℚ)
  detonation_speed : List (List ℚ)
  detonation_mach : List (List ℚ)
  product_temp : List (List ℚ)
  product_press : List (List ℚ)
  product_specificheat : List (List ℚ)
  calc_detspeed : List (List ℚ)
deriving DecidableEq

/-- The arrays as allocated before the sweep loop: each a
`np.stack` of three zero rows. -/
def detArrays0 : DetArrays where
  detionation_speed := npStack3 property_array property_array property_array
  detonation_speed := npStack3 property_array property_array property_array
  detonation_mach := npStack3 property_array property_array property_array
  product_temp := npStack3 property_array property_array property_array
  product_press := npStack3 property_array property_array property_array
  product_specificheat := npStack3 property_array property_array property_array
  calc_detspeed := npStack3 property_array property_array property_array

/-- The array stores of one iteration: the five `[IC, idx] = …`
assignments at the end of the loop body. -/
def detStep (lib : SDLib) (IC idx : ℕ) (Tpre Ppre c : ℚ) (A : DetArrays) :
    DetArrays :=
  let v := detIter lib Tpre Ppre c
  { A with
    product_temp := set2 A.product_temp IC idx v.gas.T
    detonation_speed := set2 A.detonation_speed IC idx v.D
    product_press := set2 A.product_press IC idx v.gas.P
    detonation_mach := set2 A.detonation_mach IC idx v.mach
    product_specificheat := set2 A.product_specificheat IC idx v.gammaf }

/-- The inner sweep `for idx, propane_comp in enumerate(compositions)`
for a fixed `IC`. -/
def detInner (lib : SDLib) (IC : ℕ) (Tpre Ppre : ℚ) (A : DetArrays) :
    DetArrays :=
  (List.enum compositions).foldl
    (fun B p => detStep lib IC p.1 Tpre Ppre p.2 B) A

/-- The arrays after the full double sweep
`for IC, _ in enumerate(inittemp): for idx, … in enumerate(compositions)`. -/
def detArrays (lib : SDLib) : DetArrays :=
  (List.enum inittemp).foldl
    (fun B p => detInner lib p.1 (inittemp.getD p.1 0) (initpress.getD p.1 0) B)
    detArrays0

/-- Stdout effects emitted during the double sweep, in loop order. -/
def detLoopEffects (lib : SDLib) : List Effect :=
  ((List.enum inittemp).map fun p =>
    (compositions.map fun c =>
      (detIter lib (inittemp.getD p.1 0) (initpress.getD p.1 0) c).effects).flatten).flatten

/-- The five plotting blocks after the loop: for each figure, three
`plt.plot` calls consuming the rows of one result array, a
`plt.savefig`, and a `plt.show`. -/
def detPlotBlock (lib : SDLib) : List Effect :=
  let A := detArrays lib
  [Effect.plot compositions (getRow A.detonation_speed 0),
   Effect.plot compositions (getRow A.detonation_speed 1),
   Effect.plot compositions (getRow A.detonation_speed 2),
   Effect.savefig "Figures/DetSpeed.png",
   Effect.showFig,
   Effect.plot compositions (getRow A.product_temp 0),
   Effect.plot compositions (getRow A.product_temp 1),
   Effect.plot compositions (getRow A.product_temp 2),
   Effect.savefig "Figures/DetTemp.png",
   Effect.showFig,
   Effect.plot compositions ((getRow A.product_press 0).map fun x => x / 101325),
   Effect.plot compositions ((getRow A.product_press 1).map fun x => x / 101325),
   Effect.plot compositions ((getRow A.product_press 2).map fun x => x / 101325),
   Effect.savefig "Figures/DetPress.png",
   Effect.showFig,
   Effect.plot compositions (getRow A.detonation_mach 0),
   Effect.plot compositions (getRow A.detonation_mach 1),
   Effect.plot compositions (getRow A.detonation_mach 2),
   Effect.savefig "Figures/DetMach.png",
   Effect.showFig,
   Effect.plot compositions (getRow A.product_specificheat 0),
   Effect.plot compositions (getRow A.product_specificheat 1),
   Effect.plot compositions (getRow A.product_specificheat 2),
   Effect.savefig "Figures/DetSpecHeat.png",
   Effect.showFig]

/-- The full effect sequence of `DetProperties.py`. -/
def detRunEffects (lib : SDLib) : List Effect :=
  detLoopEffects lib ++ detPlotBlock lib

end DetProperties

/-- The plot-data handed to the charting library by an effect, if any. -/
def plotOf : Effect → Option (List ℚ × List ℚ)
  | Effect.plot xs ys => some (xs, ys)
  | _ => none

/-- The figure-file path written by an effect, if any. -/
def savefigOf : Effect → Option String
  | Effect.savefig p => some p
  | _ => none

/-- An effect is a write to stdout. -/
def isStdout : Effect → Bool
  | Effect.printStr _ => true
  | Effect.printComp _ => true
  | Effect.printQ _ _ => true
  | _ => false

/-- The external library with fallible calls: every solver entry point
may raise, and the error is represented as an `Except` value.  This is
the model used for the error-handling claims. -/
structure SDLibE (ε : Type) where
  Solution : String → ℚ → ℚ → Comp → Except ε Gas
  soundspeed_eq : Gas → Except ε ℚ
  soundspeed_fr : Gas → Except ε ℚ
  CJspeed : ℚ → ℚ → Comp → String → Bool → Except ε CJResult
  PostShock_eq : ℚ → ℚ → ℚ → Comp → String → Except ε Gas
  PostShock_fr : ℚ → ℚ → ℚ → Comp → String → Except ε Gas
  reactorAdvance : Gas → ℚ → Except ε ℚ
  npPower : ℚ → ℚ → ℚ

namespace DetProperties

/-- One iteration of `DetProperties.py` in the fallible model: the same
line-by-line sequence of calls, each of which may raise; the script
wraps none of them, so the first error aborts the iteration. -/
def detIterE {ε : Type} (lib : SDLibE ε) (Tpre Ppre propane_comp : ℚ) :
    Except ε (ℚ × ℚ × ℚ × ℚ × ℚ) := do
  let HC_comp := propane_comp
  let O_comp := (100 - HC_comp) * 0.21
  let N2_comp := (100 - HC_comp) * 0.79
  let P1 := Ppre * 1000
  let T1 := Tpre
  let q : Comp := ⟨HC_comp, O_comp, N2_comp⟩
  let mech := "gri30.cti"
  let gas_initial ← lib.Solution mech T1 P1 q
  let rho_1 := gas_initial.density
  let csound ← lib.soundspeed_eq gas_initial
  let r ← lib.CJspeed P1 T1 q mech true
  let cj_speed := r.speed
  let gas ← lib.PostShock_eq cj_speed P1 T1 q mech
  let _ ← lib.soundspeed_eq gas
  let af ← lib.soundspeed_fr gas
  let rho_2 := gas.density
  let gammaf := af ^ 2 * rho_2 / gas.P
  let w2 := cj_speed * rho_1 / rho_2
  let _ := cj_speed - w2
  let D := cj_speed
  let mach := D / csound
  pure (gas.T, D, gas.P, mach, gammaf)

/-- One inner-loop step of the `DetProperties.py` sweep in the fallible
model: run the iteration body and perform the five array stores. -/
def detRowStepE {ε : Type} (lib : SDLibE ε) (IC : ℕ) (C : DetArrays)
    (cp : ℕ × ℚ) : Except ε DetArrays := do
  let v ← detIterE lib (inittemp.getD IC 0) (initpress.getD IC 0) cp.2
  pure { C with
         product_temp := set2 C.product_temp IC cp.1 v.1
         detonation_speed := set2 C.detonation_speed IC cp.1 v.2.1
         product_press := set2 C.product_press IC cp.1 v.2.2.1
         detonation_mach := set2 C.detonation_mach IC cp.1 v.2.2.2.1
         product_specificheat := set2 C.product_specificheat IC cp.1 v.2.2.2.2 }

/-- One outer-loop step: the full inner composition sweep for row `p.1`
in the fallible model. -/
def detRowE {ε : Type} (lib : SDLibE ε) (B : DetArrays) (p : ℕ × ℚ) :
    Except ε DetArrays :=
  (List.enum compositions).foldlM (detRowStepE lib p.1) B

/-- The full double sweep of `DetProperties.py` in the fallible model,
accumulating the result arrays; any error in any iteration aborts the
whole run. -/
def detArraysE {ε : Type} (lib : SDLibE ε) : Except ε DetArrays :=
  (List.enum inittemp).foldlM (detRowE lib) detArrays0

end DetProperties

namespace DemoCJstate

/-- One iteration of `demo_CJstate.py` in the fallible model, returning
the value stored into `detonation_speed`. -/
def demoIterE {ε : Type} (lib : SDLibE ε) (propane_comp : ℚ) : Except ε ℚ := do
  let HC_comp := propane_comp
  let O_comp := (100 - HC_comp) * 0.21
  let N2_comp := (100 - HC_comp) * 0.79
  let P1 := (initpress : ℚ) * 1000
  let T1 := (inittemp : ℚ)
  let q : Comp := ⟨HC_comp, O_comp, N2_comp⟩
  let mech := "gri30.cti"
  let gas_initial ← lib.Solution mech T1 P1 q
  let rho_1 := gas_initial.density
  let r ← lib.CJspeed P1 T1 q mech true
  let cj_speed := r.speed
  let gas ← lib.PostShock_eq cj_speed P1 T1 q mech
  let _ ← lib.soundspeed_eq gas
  let _ ← lib.soundspeed_fr gas
  let rho_2 := gas.density
  let w2 := cj_speed * rho_1 / rho_2
  let _ := cj_speed - w2
  pure cj_speed

/-- The sweep of `demo_CJstate.py` in the fallible model. -/
def demoSpeedsE {ε : Type} (lib : SDLibE ε) : Except ε (List ℚ) :=
  (List.enum compositions).foldlM
    (fun a p => do
      let s ← demoIterE lib p.2
      pure (a.set p.1 s))
    (npZerosLike compositions)

end DemoCJstate

namespace ZND

/-- The ignition-scan loop in the fallible model: `sim1.advance(t_i)` may
raise, and the script does not guard it. -/
def scanLoopE {ε : Type} (advance : ℚ → Except ε ℚ) (thresh : ℚ) :
    List ℚ → ℚ → Except ε ℚ
  | [], det_time => pure det_time
  | t :: ts, _ => do
      let T ← advance t
      if thresh < T then pure t else scanLoopE advance thresh ts t

/-- The whole of `ZNDDetPostShock.py` in the fallible model, returning
the printed `det_time`. -/
def zndRunE {ε : Type} (lib : SDLibE ε) : Except ε ℚ := do
  let preshock ← lib.Solution mech inittemp (initpress * one_atm) q
  let _ := preshock
  let r ← lib.CJspeed (initpress * one_atm) inittemp q mech false
  let postshock ← lib.PostShock_fr r.speed (initpress * one_atm) inittemp q mech
  let shockedtemp := postshock.T
  scanLoopE (lib.reactorAdvance postshock) (shockedtemp + 150) timesteps 0

end ZND

/-- A fallible library model that fails on every call, with a fixed
error message. -/
def failLib : SDLibE String where
  Solution := fun _ _ _ _ => Except.error "solver failure"
  soundspeed_eq := fun _ => Except.error "solver failure"
  soundspeed_fr := fun _ => Except.error "solver failure"
  CJspeed := fun _ _ _ _ _ => Except.error "solver failure"
  PostShock_eq := fun _ _ _ _ _ => Except.error "solver failure"
  PostShock_fr := fun _ _ _ _ _ => Except.error "solver failure"
  reactorAdvance := fun _ _ => Except.error "solver failure"
  npPower := fun _ _ => 1

/-- A library model in which the reactor never ignites: the reactor
temperature stays at the post-shock temperature forever. -/
def noIgniteLib : SDLib :=
  { constLib with reactorTemp := fun g _ => g.T }

/-- Statement vocabulary: in a call trace, every post-shock solver call
was given a speed returned by a `CJspeed` call that received exactly the
same pressure, temperature, composition and mechanism arguments. -/
def psMatchesCj (calls : List CallEvent) : Prop :=
  ∀ s P T qc m,
    (CallEvent.psEq s P T qc m ∈ calls ∨ CallEvent.psFr s P T qc m ∈ calls) →
    ∃ full, CallEvent.cj P T qc m full s ∈ calls

/-- Shape of a `DetProperties.py` result array: three rows of thirty. -/
def Dims (m : List (List ℚ)) : Prop :=
  m.length = 3 ∧ ∀ r ∈ m, r.length = 30

/-- Shape invariant for all seven result arrays. -/
def DimsA (A : DetProperties.DetArrays) : Prop :=
  Dims A.detionation_speed ∧ Dims A.detonation_speed ∧ Dims A.detonation_mach ∧
  Dims A.product_temp ∧ Dims A.product_press ∧ Dims A.product_specificheat ∧
  Dims A.calc_detspeed

/-- The inner sweep of `DetProperties.py` over an arbitrary tail of the
composition list with an arbitrary starting index: the generalisation of
`DetProperties.detInner` used for its loop invariant. -/
def innerFoldFrom (lib : SDLib) (IC : ℕ) (Tpre Ppre : ℚ) (k : ℕ) (cs : List ℚ)
    (A : DetProperties.DetArrays) : DetProperties.DetArrays :=
  (List.enumFrom k cs).foldl
    (fun B p => DetProperties.detStep lib IC p.1 Tpre Ppre p.2 B) A

/-! ## Lemmas about the ignition scan loop -/

theorem scanLoop_eq_find {temp : ℚ → ℚ} {thresh : ℚ} :
    ∀ {ts : List ℚ} (d : ℚ) {t : ℚ},
      ts.find? (fun s => decide (thresh < temp s)) = some t →
      ZND.scanLoop temp thresh ts d = t := by
  intro ts
  induction ts with
  | nil => intro d t h; simp at h
  | cons a ts ih =>
      intro d t h
      by_cases hc : thresh < temp a
      · rw [List.find?_cons_of_pos _ (by simpa using hc)] at h
        have ha := Option.some.inj h
        subst ha
        simp [ZND.scanLoop, hc]
      · rw [List.find?_cons_of_neg _ (by simpa using hc)] at h
        simpa [ZND.scanLoop, hc] using ih a h

theorem scanLoop_eq_getLastD {temp : ℚ → ℚ} {thresh : ℚ} :
    ∀ {ts : List ℚ} (d : ℚ),
      ts.find? (fun s => decide (thresh < temp s)) = none →
      ZND.scanLoop temp thresh ts d = ts.getLastD d := by
  intro ts
  induction ts with
  | nil => intro d _; rfl
  | cons a ts ih =>
      intro d h
      by_cases hc : thresh < temp a
      · rw [List.find?_cons_of_pos _ (by simpa using hc)] at h
        exact absurd h (by simp)
      · rw [List.find?_cons_of_neg _ (by simpa using hc)] at h
        rw [List.getLastD_cons]
        simpa [ZND.scanLoop, hc] using ih a h

theorem scanLoop_mem {temp : ℚ → ℚ} {thresh : ℚ} :
    ∀ {ts : List ℚ} (d : ℚ), ts ≠ [] →
      ZND.scanLoop temp thresh ts d ∈ ts := by
  intro ts
  induction ts with
  | nil => intro d h; exact absurd rfl h
  | cons a ts ih =>
      intro d _
      by_cases hc : thresh < temp a
      · simp [ZND.scanLoop, hc]
      · by_cases hts : ts = []
        · subst hts; simp [ZND.scanLoop, hc]
        · simp only [ZND.scanLoop, if_neg hc]
          exact List.mem_cons_of_mem a (ih a hts)

theorem find?_range_eq_some {p : ℕ → Bool} :
    ∀ (n i : ℕ), i < n → p i = true → (∀ j, j < i → p j = false) →
      (List.range n).find? p = some i := by
  intro n
  induction n with
  | zero => intro i h; omega
  | succ n ih =>
      intro i hi hp hfirst
      rw [List.range_succ, List.find?_append]
      by_cases hin : i < n
      · rw [ih i hin hp hfirst]; rfl
      · have hieq : i = n := by omega
        subst hieq
        have hnone : (List.range i).find? p = none := by
          rw [List.find?_eq_none]
          intro j hj
          simp [hfirst j (List.mem_range.mp hj)]
        rw [hnone]
        simp [List.find?, hp]

theorem timesteps_eq_map_range :
    ZND.timesteps =
      (List.range ZND.n_steps).map (fun i : ℕ => ((i : ℚ) + 1) * ZND.dt) := by
  unfold ZND.timesteps npArange
  rw [List.map_map]
  rfl

/-! ## Claims about single iterations and the ignition scan -/

/-- C3: in each script the composition mapping built from a fuel
percentage `h` assigns `C3H8 = h`, `O2 = (total − h)·0.21` and
`N2 = (total − h)·0.79` (total `100` in `DetProperties.py` and
`demo_CJstate.py`, total `1` with `h = 0.092` in `ZNDDetPostShock.py`);
the three components always sum exactly to the total and satisfy
`O2 : N2 = 21 : 79`. -/
theorem c3_composition_mapping (lib : SDLib) (Tpre Ppre h : ℚ) :
    ((DetProperties.detIter lib Tpre Ppre h).q =
        ⟨h, (100 - h) * 0.21, (100 - h) * 0.79⟩ ∧
      (DetProperties.detIter lib Tpre Ppre h).q.C3H8 +
          (DetProperties.detIter lib Tpre Ppre h).q.O2 +
          (DetProperties.detIter lib Tpre Ppre h).q.N2 = 100 ∧
      79 * (DetProperties.detIter lib Tpre Ppre h).q.O2 =
        21 * (DetProperties.detIter lib Tpre Ppre h).q.N2) ∧
    ((DemoCJstate.demoIter lib h).q =
        ⟨h, (100 - h) * 0.21, (100 - h) * 0.79⟩ ∧
      (DemoCJstate.demoIter lib h).q.C3H8 + (DemoCJstate.demoIter lib h).q.O2 +
          (DemoCJstate.demoIter lib h).q.N2 = 100 ∧
      79 * (DemoCJstate.demoIter lib h).q.O2 =
        21 * (DemoCJstate.demoIter lib h).q.N2) ∧
    (ZND.q = ⟨0.092, (1 - 0.092) * 0.21, (1 - 0.092) * 0.79⟩ ∧
      ZND.q.C3H8 + ZND.q.O2 + ZND.q.N2 = 1 ∧
      79 * ZND.q.O2 = 21 * ZND.q.N2) := by
  refine ⟨⟨rfl, ?_, ?_⟩, ⟨rfl, ?_, ?_⟩, ⟨rfl, ?_, ?_⟩⟩
  · simp only [DetProperties.detIter]; ring
  · simp only [DetProperties.detIter]; ring
  · simp only [DemoCJstate.demoIter]; ring
  · simp only [DemoCJstate.demoIter]; ring
  · norm_num [ZND.q, ZND.HC_comp]
  · norm_num [ZND.q, ZND.HC_comp]

/-- C4: in every iteration the derived quantities follow the fixed
arithmetic formulas `gammaf = af² ρ₂ / P₂`, `gammae = ae² ρ₂ / P₂`,
`w2 = cj_speed · ρ₁ / ρ₂`, `u2 = cj_speed − w2` (hence
`w2 + u2 = cj_speed`), and in `DetProperties.py` additionally
`mach = cj_speed / csound` where `csound` is the equilibrium sound speed
of the initial pre-shock gas state. -/
theorem c4_derived_quantities (lib : SDLib) (Tpre Ppre c : ℚ) :
    ((DetProperties.detIter lib Tpre Ppre c).gammaf =
        (DetProperties.detIter lib Tpre Ppre c).af ^ 2 *
          (DetProperties.detIter lib Tpre Ppre c).rho_2 /
          (DetProperties.detIter lib Tpre Ppre c).gas.P ∧
      (DetProperties.detIter lib Tpre Ppre c).gammae =
        (DetProperties.detIter lib Tpre Ppre c).ae ^ 2 *
          (DetProperties.detIter lib Tpre Ppre c).rho_2 /
          (DetProperties.detIter lib Tpre Ppre c).gas.P ∧
      (DetProperties.detIter lib Tpre Ppre c).w2 =
        (DetProperties.detIter lib Tpre Ppre c).cj_speed *
          (DetProperties.detIter lib Tpre Ppre c).rho_1 /
          (DetProperties.detIter lib Tpre Ppre c).rho_2 ∧
      (DetProperties.detIter lib Tpre Ppre c).u2 =
        (DetProperties.detIter lib Tpre Ppre c).cj_speed -
          (DetProperties.detIter lib Tpre Ppre c).w2 ∧
      (DetProperties.detIter lib Tpre Ppre c).w2 +
          (DetProperties.detIter lib Tpre Ppre c).u2 =
        (DetProperties.detIter lib Tpre Ppre c).cj_speed ∧
      (DetProperties.detIter lib Tpre Ppre c).mach =
        (DetProperties.detIter lib Tpre Ppre c).cj_speed /
          (DetProperties.detIter lib Tpre Ppre c).csound ∧
      (DetProperties.detIter lib Tpre Ppre c).csound =
        lib.soundspeed_eq (DetProperties.detIter lib Tpre Ppre c).gas_initial ∧
      (DetProperties.detIter lib Tpre Ppre c).gas_initial =
        lib.Solution "gri30.cti" Tpre (Ppre * 1000)
          (DetProperties.detIter lib Tpre Ppre c).q) ∧
    ((DemoCJstate.demoIter lib c).gammaf =
        (DemoCJstate.demoIter lib c).af ^ 2 * (DemoCJstate.demoIter lib c).rho_2 /
          (DemoCJstate.demoIter lib c).gas.P ∧
      (DemoCJstate.demoIter lib c).gammae =
        (DemoCJstate.demoIter lib c).ae ^ 2 * (DemoCJstate.demoIter lib c).rho_2 /
          (DemoCJstate.demoIter lib c).gas.P ∧
      (DemoCJstate.demoIter lib c).w2 =
        (DemoCJstate.demoIter lib c).cj_speed * (DemoCJstate.demoIter lib c).rho_1 /
          (DemoCJstate.demoIter lib c).rho_2 ∧
      (DemoCJstate.demoIter lib c).u2 =
        (DemoCJstate.demoIter lib c).cj_speed - (DemoCJstate.demoIter lib c).w2 ∧
      (DemoCJstate.demoIter lib c).w2 + (DemoCJstate.demoIter lib c).u2 =
        (DemoCJstate.demoIter lib c).cj_speed) := by
  refine ⟨⟨rfl, rfl, rfl, rfl, ?_, rfl, rfl, rfl⟩, rfl, rfl, rfl, rfl, ?_⟩
  · simp only [DetProperties.detIter]; ring
  · simp only [DemoCJstate.demoIter]; ring

/-- C10: the value `Dcalc` printed as `Calc 2700K Det Speed` is the same
on every iteration: it depends on none of the sweep parameters and on no
solver result, only on the fixed numeric expression
`(1.29 + 1)/1.29 · power(1.29·8314·2700/28, 0.5)`. -/
theorem c10_dcalc_constant (lib lib' : SDLib) (Tpre Ppre c Tpre' Ppre' c' : ℚ)
    (hp : lib.npPower = lib'.npPower) :
    (DetProperties.detIter lib Tpre Ppre c).Dcalc =
        (DetProperties.detIter lib' Tpre' Ppre' c').Dcalc ∧
    (DetProperties.detIter lib Tpre Ppre c).Dcalc =
      (1.29 + 1) / 1.29 * lib.npPower (1.29 * 8314 * 2700 / 28) 0.5 := by
  constructor
  · simp only [DetProperties.detIter, hp]
  · rfl

/-- Witness for C10 at a concrete library model and two different
parameter triples. -/
theorem c10_dcalc_constant_witness :
    (DetProperties.detIter constLib 300 100 (11 / 5)).Dcalc =
        (DetProperties.detIter constLib 600 500 (46 / 5)).Dcalc ∧
    (DetProperties.detIter constLib 300 100 (11 / 5)).Dcalc =
      (1.29 + 1) / 1.29 * constLib.npPower (1.29 * 8314 * 2700 / 28) 0.5 :=
  c10_dcalc_constant constLib constLib 300 100 (11 / 5) 600 500 (46 / 5) rfl

/-- C6: in every script and every iteration, the post-shock solver is
invoked with exactly the pressure, temperature, composition and mechanism
passed to the CJ-speed solver of that iteration, plus the speed the
CJ-speed solver returned. -/
theorem c6_postshock_arguments (lib : SDLib) (Tpre Ppre c : ℚ) :
    psMatchesCj (DetProperties.detIter lib Tpre Ppre c).calls ∧
    psMatchesCj (DemoCJstate.demoIter lib c).calls ∧
    psMatchesCj (ZND.zndRunCalls lib) := by
  refine ⟨?_, ?_, ?_⟩
  · intro s P T qc m hmem
    simp only [DetProperties.detIter] at hmem
    simp only [List.mem_cons, List.not_mem_nil, or_false, reduceCtorEq, false_or,
      CallEvent.psEq.injEq] at hmem
    obtain ⟨hs, hP, hT, hq, hm⟩ := hmem
    subst hs; subst hP; subst hT; subst hq; subst hm
    exact ⟨true, by simp [DetProperties.detIter]⟩
  · intro s P T qc m hmem
    simp only [DemoCJstate.demoIter] at hmem
    simp only [List.mem_cons, List.not_mem_nil, or_false, reduceCtorEq, false_or,
      CallEvent.psEq.injEq] at hmem
    obtain ⟨hs, hP, hT, hq, hm⟩ := hmem
    subst hs; subst hP; subst hT; subst hq; subst hm
    exact ⟨true, by simp [DemoCJstate.demoIter]⟩
  · intro s P T qc m hmem
    simp only [ZND.zndRunCalls] at hmem
    simp only [List.mem_append, List.mem_cons, List.not_mem_nil, or_false,
      reduceCtorEq, false_or, List.mem_map, and_false, false_and, exists_false,
      CallEvent.psFr.injEq] at hmem
    obtain ⟨hs, hP, hT, hq, hm⟩ := hmem
    subst hs; subst hP; subst hT; subst hq; subst hm
    exact ⟨false, by simp [ZND.zndRunCalls]⟩

/-- Witness for C6: in the first `DetProperties.py` iteration under the
constant library model, the post-shock arguments are matched by a
recorded CJ-speed call. -/
theorem c6_postshock_arguments_witness :
    ∃ full,
      CallEvent.cj (100 * 1000) 300
          ⟨11 / 5, (100 - 11 / 5) * 0.21, (100 - 11 / 5) * 0.79⟩
          "gri30.cti" full 1 ∈
        (DetProperties.detIter constLib 300 100 (11 / 5)).calls :=
  (c6_postshock_arguments constLib 300 100 (11 / 5)).1 1 (100 * 1000) 300
    ⟨11 / 5, (100 - 11 / 5) * 0.21, (100 - 11 / 5) * 0.79⟩ "gri30.cti"
    (Or.inl (by simp [DetProperties.detIter, constLib]))

/-- C2: the ZND reactor scan uses the fixed grid `t_i = i·dt`,
`dt = 0.25/300000`, `i = 1..300000`, and if step `i` is the first whose
reactor temperature exceeds the post-shock temperature plus 150 K, the
loop stops there and the printed `det_time` is exactly `i·dt`. -/
theorem c2_ignition_delay_scan (lib : SDLib) (i : ℕ) (h1 : 1 ≤ i)
    (h2 : i ≤ ZND.n_steps)
    (hc : (ZND.postshockgas lib).T + 150 <
        lib.reactorTemp (ZND.postshockgas lib) ((i : ℚ) * ZND.dt))
    (hfirst : ∀ j : ℕ, 1 ≤ j → j < i →
        lib.reactorTemp (ZND.postshockgas lib) ((j : ℚ) * ZND.dt) ≤
          (ZND.postshockgas lib).T + 150) :
    ZND.det_time lib = (i : ℚ) * ZND.dt ∧
    ZND.dt = 0.25 / 300000 ∧
    ZND.timesteps = (List.range 300000).map (fun k : ℕ => ((k : ℚ) + 1) * ZND.dt) ∧
    (ZND.zndRunEffects lib).getLast? =
      some (Effect.printQ "    PostShock Autoignition Delay:  s"
        [(i : ℚ) * ZND.dt]) := by
  obtain ⟨k, rfl⟩ : ∃ k, i = k + 1 := ⟨i - 1, by omega⟩
  push_cast at hc
  have hdt : ZND.det_time lib = ((k : ℚ) + 1) * ZND.dt := by
    unfold ZND.det_time
    apply scanLoop_eq_find
    rw [timesteps_eq_map_range, List.find?_map]
    have hfind : (List.range ZND.n_steps).find?
        ((fun s => decide ((ZND.postshockgas lib).T + 150 <
            lib.reactorTemp (ZND.postshockgas lib) s)) ∘
          fun j : ℕ => ((j : ℚ) + 1) * ZND.dt) = some k := by
      apply find?_range_eq_some
      · omega
      · simpa using hc
      · intro j hj
        have := hfirst (j + 1) (by omega) (by omega)
        push_cast at this
        simpa using this
    rw [hfind]
    rfl
  have hlast : (ZND.zndRunEffects lib).getLast? =
      some (Effect.printQ "    PostShock Autoignition Delay:  s"
        [ZND.det_time lib]) := rfl
  refine ⟨by push_cast; exact hdt, by norm_num [ZND.dt, ZND.n_steps],
    timesteps_eq_map_range, ?_⟩
  rw [hlast, hdt]
  norm_num

/-- Witness for C2 at the constant library model, whose reactor exceeds
the threshold already at the first step. -/
theorem c2_ignition_delay_scan_witness :
    ZND.det_time constLib = ((1 : ℕ) : ℚ) * ZND.dt ∧
    ZND.dt = 0.25 / 300000 ∧
    ZND.timesteps = (List.range 300000).map (fun k : ℕ => ((k : ℚ) + 1) * ZND.dt) ∧
    (ZND.zndRunEffects constLib).getLast? =
      some (Effect.printQ "    PostShock Autoignition Delay:  s"
        [((1 : ℕ) : ℚ) * ZND.dt]) :=
  c2_ignition_delay_scan constLib 1 le_rfl (by norm_num [ZND.n_steps])
    (by norm_num [constLib, ZND.postshockgas]) (fun j hj1 hj2 => by omega)

/-- C9: if the reactor temperature never exceeds the threshold at any of
the 300000 steps, the loop runs to completion and the script still prints
`det_time = 0.25` s with no error; in every case `0 < det_time ≤ 0.25`. -/
theorem c9_no_ignition_fallback (lib : SDLib) :
    ((∀ i : ℕ, 1 ≤ i → i ≤ ZND.n_steps →
        lib.reactorTemp (ZND.postshockgas lib) ((i : ℚ) * ZND.dt) ≤
          (ZND.postshockgas lib).T + 150) →
      ZND.det_time lib = 0.25) ∧
    0 < ZND.det_time lib ∧ ZND.det_time lib ≤ 0.25 ∧
    (ZND.zndRunEffects lib).getLast? =
      some (Effect.printQ "    PostShock Autoignition Delay:  s"
        [ZND.det_time lib]) := by
  have hdtpos : (0 : ℚ) < ZND.dt := by norm_num [ZND.dt, ZND.n_steps]
  have hne : ZND.timesteps ≠ [] := by
    rw [timesteps_eq_map_range]
    simp [List.range_eq_nil, ZND.n_steps]
  have hmem : ZND.det_time lib ∈ ZND.timesteps := by
    unfold ZND.det_time
    exact scanLoop_mem 0 hne
  rw [timesteps_eq_map_range] at hmem
  obtain ⟨k, hk, hEq⟩ := List.mem_map.mp hmem
  have hkn : k < 300000 := by
    have := List.mem_range.mp hk
    simpa [ZND.n_steps] using this
  refine ⟨?_, ?_, ?_, rfl⟩
  · intro h
    unfold ZND.det_time
    rw [scanLoop_eq_getLastD]
    · rw [timesteps_eq_map_range]
      have h3 : ZND.n_steps = 299999 + 1 := by norm_num [ZND.n_steps]
      rw [h3, List.range_succ, List.map_append]
      simp only [List.map_cons, List.map_nil]
      rw [List.getLastD_concat]
      push_cast
      norm_num [ZND.dt, ZND.n_steps]
    · rw [List.find?_eq_none]
      intro t ht
      rw [timesteps_eq_map_range] at ht
      obtain ⟨j, hj, hjEq⟩ := List.mem_map.mp ht
      have hjn : j < ZND.n_steps := List.mem_range.mp hj
      have := h (j + 1) (by omega) (by omega)
      push_cast at this
      subst hjEq
      simpa using this
  · rw [← hEq]
    have hknn : (0 : ℚ) ≤ (k : ℚ) := Nat.cast_nonneg k
    have : (0 : ℚ) < (k : ℚ) + 1 := by linarith
    exact mul_pos this hdtpos
  · rw [← hEq]
    have hb : ((k : ℚ) + 1) ≤ 300000 := by
      have hk2 : k ≤ 299999 := by omega
      have : (k : ℚ) ≤ 299999 := by exact_mod_cast hk2
      linarith
    calc ((k : ℚ) + 1) * ZND.dt ≤ 300000 * ZND.dt :=
          mul_le_mul_of_nonneg_right hb (le_of_lt hdtpos)
      _ = 0.25 := by norm_num [ZND.dt, ZND.n_steps]

/-- Witness for C9 at a library model whose reactor never heats up: the
full window is reported as the delay. -/
theorem c9_no_ignition_fallback_witness :
    ZND.det_time noIgniteLib = 0.25 ∧ 0 < ZND.det_time noIgniteLib := by
  have h := c9_no_ignition_fallback noIgniteLib
  refine ⟨h.1 ?_, h.2.1⟩
  intro i h1 h2
  simp [noIgniteLib, constLib]

/-! ## Lemmas about the `DetProperties` array sweep -/

theorem get2_set2_self {m : List (List ℚ)} {i j : ℕ} (v : ℚ)
    (hi : i < m.length) (hj : j < (m.getD i []).length) :
    get2 (set2 m i j v) i j = v := by
  unfold get2 set2
  simp only [List.getD_eq_getElem?_getD] at hj ⊢
  rw [List.getElem?_set_self hi, Option.getD_some, List.getElem?_set_self hj,
    Option.getD_some]

theorem get2_set2_ne {m : List (List ℚ)} {i j i' j' : ℕ} (v : ℚ)
    (h : i ≠ i' ∨ j ≠ j') :
    get2 (set2 m i j v) i' j' = get2 m i' j' := by
  unfold get2 set2
  simp only [List.getD_eq_getElem?_getD]
  by_cases hii : i = i'
  · subst hii
    have hjj : j ≠ j' := h.resolve_left (fun hcon => hcon rfl)
    by_cases hi : i < m.length
    · rw [List.getElem?_set_self hi, Option.getD_some, List.getElem?_set_ne hjj]
    · have h2 : m.length ≤ i := by omega
      have h1 : (m.set i (((m[i]?).getD []).set j v)).length ≤ i := by
        rw [List.length_set]; exact h2
      rw [List.getElem?_eq_none h1, List.getElem?_eq_none h2]
  · rw [List.getElem?_set_ne hii]

theorem dims_row_len {m : List (List ℚ)} (hd : Dims m) {i : ℕ} (hi : i < 3) :
    (m.getD i []).length = 30 := by
  have hiL : i < m.length := by rw [hd.1]; exact hi
  rw [List.getD_eq_getElem?_getD, List.getElem?_eq_getElem hiL, Option.getD_some]
  exact hd.2 _ (List.getElem_mem hiL)

theorem dims_set2 {m : List (List ℚ)} {i : ℕ} (j : ℕ) (v : ℚ) (hd : Dims m)
    (hi : i < 3) : Dims (set2 m i j v) := by
  obtain ⟨hl, hr⟩ := hd
  refine ⟨by rw [set2, List.length_set]; exact hl, ?_⟩
  intro r hrm
  rcases List.mem_or_eq_of_mem_set hrm with hmem | heq
  · exact hr r hmem
  · subst heq
    rw [List.length_set]
    exact dims_row_len ⟨hl, hr⟩ hi

theorem dims_detStep (lib : SDLib) {IC : ℕ} (idx : ℕ) (Tp Pp c : ℚ)
    {A : DetProperties.DetArrays} (hd : DimsA A) (hIC : IC < 3) :
    DimsA (DetProperties.detStep lib IC idx Tp Pp c A) := by
  obtain ⟨d1, d2, d3, d4, d5, d6, d7⟩ := hd
  exact ⟨d1, dims_set2 _ _ d2 hIC, dims_set2 _ _ d3 hIC, dims_set2 _ _ d4 hIC,
    dims_set2 _ _ d5 hIC, dims_set2 _ _ d6 hIC, d7⟩

theorem get2_detStep_self (lib : SDLib) {IC : ℕ} (k : ℕ) (Tp Pp c : ℚ)
    {A : DetProperties.DetArrays} (hd : DimsA A) (hIC : IC < 3) (hk : k < 30) :
    get2 (DetProperties.detStep lib IC k Tp Pp c A).product_temp IC k =
        (DetProperties.detIter lib Tp Pp c).gas.T ∧
    get2 (DetProperties.detStep lib IC k Tp Pp c A).detonation_speed IC k =
        (DetProperties.detIter lib Tp Pp c).D ∧
    get2 (DetProperties.detStep lib IC k Tp Pp c A).product_press IC k =
        (DetProperties.detIter lib Tp Pp c).gas.P ∧
    get2 (DetProperties.detStep lib IC k Tp Pp c A).detonation_mach IC k =
        (DetProperties.detIter lib Tp Pp c).mach ∧
    get2 (DetProperties.detStep lib IC k Tp Pp c A).product_specificheat IC k =
        (DetProperties.detIter lib Tp Pp c).gammaf := by
  obtain ⟨d1, d2, d3, d4, d5, d6, d7⟩ := hd
  refine ⟨get2_set2_self _ ?_ ?_, get2_set2_self _ ?_ ?_, get2_set2_self _ ?_ ?_,
    get2_set2_self _ ?_ ?_, get2_set2_self _ ?_ ?_⟩
  · rw [d4.1]; exact hIC
  · rw [dims_row_len d4 hIC]; exact hk
  · rw [d2.1]; exact hIC
  · rw [dims_row_len d2 hIC]; exact hk
  · rw [d5.1]; exact hIC
  · rw [dims_row_len d5 hIC]; exact hk
  · rw [d3.1]; exact hIC
  · rw [dims_row_len d3 hIC]; exact hk
  · rw [d6.1]; exact hIC
  · rw [dims_row_len d6 hIC]; exact hk

/-- Loop invariant of the inner composition sweep: the fold fills exactly
the row-`IC` slots at indices `k, k+1, …` with the per-iteration derived
scalars, preserves every other entry of the five written arrays, and
never touches `detionation_speed` or `calc_detspeed`. -/
theorem innerFoldFrom_spec (lib : SDLib) (IC : ℕ) (Tp Pp : ℚ) (hIC : IC < 3) :
    ∀ (cs : List ℚ) (k : ℕ) (A : DetProperties.DetArrays), DimsA A →
      k + cs.length ≤ 30 →
      DimsA (innerFoldFrom lib IC Tp Pp k cs A) ∧
      (innerFoldFrom lib IC Tp Pp k cs A).detionation_speed =
        A.detionation_speed ∧
      (innerFoldFrom lib IC Tp Pp k cs A).calc_detspeed = A.calc_detspeed ∧
      (∀ i j : ℕ, i ≠ IC ∨ j < k →
        get2 (innerFoldFrom lib IC Tp Pp k cs A).product_temp i j =
            get2 A.product_temp i j ∧
        get2 (innerFoldFrom lib IC Tp Pp k cs A).detonation_speed i j =
            get2 A.detonation_speed i j ∧
        get2 (innerFoldFrom lib IC Tp Pp k cs A).product_press i j =
            get2 A.product_press i j ∧
        get2 (innerFoldFrom lib IC Tp Pp k cs A).detonation_mach i j =
            get2 A.detonation_mach i j ∧
        get2 (innerFoldFrom lib IC Tp Pp k cs A).product_specificheat i j =
            get2 A.product_specificheat i j) ∧
      (∀ m : ℕ, m < cs.length →
        get2 (innerFoldFrom lib IC Tp Pp k cs A).product_temp IC (k + m) =
            (DetProperties.detIter lib Tp Pp (cs.getD m 0)).gas.T ∧
        get2 (innerFoldFrom lib IC Tp Pp k cs A).detonation_speed IC (k + m) =
            (DetProperties.detIter lib Tp Pp (cs.getD m 0)).D ∧
        get2 (innerFoldFrom lib IC Tp Pp k cs A).product_press IC (k + m) =
            (DetProperties.detIter lib Tp Pp (cs.getD m 0)).gas.P ∧
        get2 (innerFoldFrom lib IC Tp Pp k cs A).detonation_mach IC (k + m) =
            (DetProperties.detIter lib Tp Pp (cs.getD m 0)).mach ∧
        get2 (innerFoldFrom lib IC Tp Pp k cs A).product_specificheat IC (k + m) =
            (DetProperties.detIter lib Tp Pp (cs.getD m 0)).gammaf) := by
  intro cs
  induction cs with
  | nil =>
      intro k A hd _
      exact ⟨hd, rfl, rfl, fun i j _ => ⟨rfl, rfl, rfl, rfl, rfl⟩,
        fun m hm => by simp at hm⟩
  | cons c cs ih =>
      intro k A hd hk
      have hfold : innerFoldFrom lib IC Tp Pp k (c :: cs) A =
          innerFoldFrom lib IC Tp Pp (k + 1) cs
            (DetProperties.detStep lib IC k Tp Pp c A) := by
        unfold innerFoldFrom
        rw [List.enumFrom_cons, List.foldl_cons]
      have hd1 := dims_detStep lib k Tp Pp c hd hIC
      have hlen : (k + 1) + cs.length ≤ 30 := by
        simp only [List.length_cons] at hk
        omega
      obtain ⟨ihd, ihdet, ihcalc, ihpres, ihfill⟩ :=
        ih (k + 1) (DetProperties.detStep lib IC k Tp Pp c A) hd1 hlen
      rw [hfold]
      refine ⟨ihd, ihdet.trans rfl, ihcalc.trans rfl, ?_, ?_⟩
      · intro i j hij
        have hij1 : i ≠ IC ∨ j < k + 1 := by
          rcases hij with h | h
          · exact Or.inl h
          · exact Or.inr (by omega)
        have hne : IC ≠ i ∨ k ≠ j := by
          rcases hij with h | h
          · exact Or.inl (Ne.symm h)
          · exact Or.inr (by omega)
        obtain ⟨p1, p2, p3, p4, p5⟩ := ihpres i j hij1
        exact ⟨p1.trans (get2_set2_ne _ hne), p2.trans (get2_set2_ne _ hne),
          p3.trans (get2_set2_ne _ hne), p4.trans (get2_set2_ne _ hne),
          p5.trans (get2_set2_ne _ hne)⟩
      · intro m hm
        cases m with
        | zero =>
            have hk30 : k < 30 := by
              simp only [List.length_cons] at hk
              omega
            obtain ⟨p1, p2, p3, p4, p5⟩ := ihpres IC k (Or.inr (by omega))
            obtain ⟨s1, s2, s3, s4, s5⟩ :=
              get2_detStep_self lib k Tp Pp c hd hIC hk30
            simp only [Nat.add_zero, List.getD_cons_zero]
            exact ⟨p1.trans s1, p2.trans s2, p3.trans s3, p4.trans s4,
              p5.trans s5⟩
        | succ m' =>
            have hm' : m' < cs.length := by
              simp only [List.length_cons] at hm
              omega
            have hidx : k + (m' + 1) = (k + 1) + m' := by omega
            obtain ⟨f1, f2, f3, f4, f5⟩ := ihfill m' hm'
            rw [hidx]
            simp only [List.getD_cons_succ]
            exact ⟨f1, f2, f3, f4, f5⟩

theorem compositions_length : DetProperties.compositions.length = 30 := by
  simp [DetProperties.compositions, npLinspace]

theorem property_array_length : DetProperties.property_array.length = 30 := by
  simp [DetProperties.property_array, npZerosLike, compositions_length]

theorem dims_detArrays0 : DimsA DetProperties.detArrays0 := by
  have hs : Dims (npStack3 DetProperties.property_array
      DetProperties.property_array DetProperties.property_array) := by
    refine ⟨rfl, ?_⟩
    intro r hr
    have hrpa : r = DetProperties.property_array := by
      simpa [npStack3, or_self_iff] using hr
    rw [hrpa]
    exact property_array_length
  exact ⟨hs, hs, hs, hs, hs, hs, hs⟩

theorem detInner_eq_innerFoldFrom (lib : SDLib) (IC : ℕ) (Tp Pp : ℚ)
    (A : DetProperties.DetArrays) :
    DetProperties.detInner lib IC Tp Pp A =
      innerFoldFrom lib IC Tp Pp 0 DetProperties.compositions A := by
  unfold DetProperties.detInner innerFoldFrom
  rw [List.enum_eq_enumFrom]

/-- Characterisation of one full inner sweep. -/
theorem detInner_spec (lib : SDLib) {IC : ℕ} (Tp Pp : ℚ) (hIC : IC < 3)
    {A : DetProperties.DetArrays} (hd : DimsA A) :
    DimsA (DetProperties.detInner lib IC Tp Pp A) ∧
    (DetProperties.detInner lib IC Tp Pp A).detionation_speed =
      A.detionation_speed ∧
    (DetProperties.detInner lib IC Tp Pp A).calc_detspeed = A.calc_detspeed ∧
    (∀ i j : ℕ, i ≠ IC →
      get2 (DetProperties.detInner lib IC Tp Pp A).product_temp i j =
          get2 A.product_temp i j ∧
      get2 (DetProperties.detInner lib IC Tp Pp A).detonation_speed i j =
          get2 A.detonation_speed i j ∧
      get2 (DetProperties.detInner lib IC Tp Pp A).product_press i j =
          get2 A.product_press i j ∧
      get2 (DetProperties.detInner lib IC Tp Pp A).detonation_mach i j =
          get2 A.detonation_mach i j ∧
      get2 (DetProperties.detInner lib IC Tp Pp A).product_specificheat i j =
          get2 A.product_specificheat i j) ∧
    (∀ idx : ℕ, idx < 30 →
      get2 (DetProperties.detInner lib IC Tp Pp A).product_temp IC idx =
          (DetProperties.detIter lib Tp Pp
            (DetProperties.compositions.getD idx 0)).gas.T ∧
      get2 (DetProperties.detInner lib IC Tp Pp A).detonation_speed IC idx =
          (DetProperties.detIter lib Tp Pp
            (DetProperties.compositions.getD idx 0)).D ∧
      get2 (DetProperties.detInner lib IC Tp Pp A).product_press IC idx =
          (DetProperties.detIter lib Tp Pp
            (DetProperties.compositions.getD idx 0)).gas.P ∧
      get2 (DetProperties.detInner lib IC Tp Pp A).detonation_mach IC idx =
          (DetProperties.detIter lib Tp Pp
            (DetProperties.compositions.getD idx 0)).mach ∧
      get2 (DetProperties.detInner lib IC Tp Pp A).product_specificheat IC idx =
          (DetProperties.detIter lib Tp Pp
            (DetProperties.compositions.getD idx 0)).gammaf) := by
  have h := innerFoldFrom_spec lib IC Tp Pp hIC DetProperties.compositions 0 A hd
    (by rw [compositions_length])
  rw [detInner_eq_innerFoldFrom]
  obtain ⟨h1, h2, h3, h4, h5⟩ := h
  refine ⟨h1, h2, h3, fun i j hij => h4 i j (Or.inl hij), fun idx hidx => ?_⟩
  have hfill := h5 idx (by rw [compositions_length]; exact hidx)
  simpa using hfill

theorem detArrays_unfold (lib : SDLib) :
    DetProperties.detArrays lib =
      DetProperties.detInner lib 2 (DetProperties.inittemp.getD 2 0)
        (DetProperties.initpress.getD 2 0)
        (DetProperties.detInner lib 1 (DetProperties.inittemp.getD 1 0)
          (DetProperties.initpress.getD 1 0)
          (DetProperties.detInner lib 0 (DetProperties.inittemp.getD 0 0)
            (DetProperties.initpress.getD 0 0) DetProperties.detArrays0)) := by
  unfold DetProperties.detArrays
  rw [show List.enum DetProperties.inittemp =
      [(0, (300 : ℚ)), (1, 300), (2, 600)] from rfl]
  simp only [List.foldl_cons, List.foldl_nil]

/-! ## Effect-trace lemmas -/

theorem flatten_filterMap_nil {α β : Type} (f : α → Option β) :
    ∀ L : List (List α), (∀ l ∈ L, l.filterMap f = []) →
      L.flatten.filterMap f = [] := by
  intro L
  induction L with
  | nil => intro _; rfl
  | cons a L ih =>
      intro h
      rw [List.flatten_cons, List.filterMap_append, h a (List.mem_cons_self a L),
        ih fun l hl => h l (List.mem_cons_of_mem a hl)]
      rfl

theorem detLoopEffects_no_plot (lib : SDLib) :
    (DetProperties.detLoopEffects lib).filterMap plotOf = [] := by
  unfold DetProperties.detLoopEffects
  apply flatten_filterMap_nil
  intro l hl
  obtain ⟨p, _, rfl⟩ := List.mem_map.mp hl
  apply flatten_filterMap_nil
  intro l2 hl2
  obtain ⟨c, _, rfl⟩ := List.mem_map.mp hl2
  rfl

theorem detLoopEffects_no_savefig (lib : SDLib) :
    (DetProperties.detLoopEffects lib).filterMap savefigOf = [] := by
  unfold DetProperties.detLoopEffects
  apply flatten_filterMap_nil
  intro l hl
  obtain ⟨p, _, rfl⟩ := List.mem_map.mp hl
  apply flatten_filterMap_nil
  intro l2 hl2
  obtain ⟨c, _, rfl⟩ := List.mem_map.mp hl2
  rfl

theorem detRun_plots (lib : SDLib) :
    (DetProperties.detRunEffects lib).filterMap plotOf =
      [(DetProperties.compositions,
          getRow (DetProperties.detArrays lib).detonation_speed 0),
       (DetProperties.compositions,
          getRow (DetProperties.detArrays lib).detonation_speed 1),
       (DetProperties.compositions,
          getRow (DetProperties.detArrays lib).detonation_speed 2),
       (DetProperties.compositions,
          getRow (DetProperties.detArrays lib).product_temp 0),
       (DetProperties.compositions,
          getRow (DetProperties.detArrays lib).product_temp 1),
       (DetProperties.compositions,
          getRow (DetProperties.detArrays lib).product_temp 2),
       (DetProperties.compositions,
          (getRow (DetProperties.detArrays lib).product_press 0).map
            fun x => x / 101325),
       (DetProperties.compositions,
          (getRow (DetProperties.detArrays lib).product_press 1).map
            fun x => x / 101325),
       (DetProperties.compositions,
          (getRow (DetProperties.detArrays lib).product_press 2).map
            fun x => x / 101325),
       (DetProperties.compositions,
          getRow (DetProperties.detArrays lib).detonation_mach 0),
       (DetProperties.compositions,
          getRow (DetProperties.detArrays lib).detonation_mach 1),
       (DetProperties.compositions,
          getRow (DetProperties.detArrays lib).detonation_mach 2),
       (DetProperties.compositions,
          getRow (DetProperties.detArrays lib).product_specificheat 0),
       (DetProperties.compositions,
          getRow (DetProperties.detArrays lib).product_specificheat 1),
       (DetProperties.compositions,
          getRow (DetProperties.detArrays lib).product_specificheat 2)] := by
  unfold DetProperties.detRunEffects
  rw [List.filterMap_append, detLoopEffects_no_plot, List.nil_append]
  rfl

theorem detRun_savefigs (lib : SDLib) :
    (DetProperties.detRunEffects lib).filterMap savefigOf =
      ["Figures/DetSpeed.png", "Figures/DetTemp.png", "Figures/DetPress.png",
       "Figures/DetMach.png", "Figures/DetSpecHeat.png"] := by
  unfold DetProperties.detRunEffects
  rw [List.filterMap_append, detLoopEffects_no_savefig, List.nil_append]
  rfl

theorem demoRun_savefigs (lib : SDLib) :
    (DemoCJstate.demoRunEffects lib).filterMap savefigOf =
      [DemoCJstate.figname] := by
  unfold DemoCJstate.demoRunEffects
  rw [List.filterMap_append]
  have hloop : ((DemoCJstate.compositions.map fun c =>
      (DemoCJstate.demoIter lib c).effects).flatten).filterMap savefigOf = [] := by
    apply flatten_filterMap_nil
    intro l hl
    obtain ⟨c, _, rfl⟩ := List.mem_map.mp hl
    rfl
  rw [hloop]
  rfl

theorem zndRun_no_savefig (lib : SDLib) :
    (ZND.zndRunEffects lib).filterMap savefigOf = [] := rfl

/-! ## Whole-sweep helpers for the result arrays -/

theorem dims_detArrays (lib : SDLib) : DimsA (DetProperties.detArrays lib) := by
  rw [detArrays_unfold]
  exact (detInner_spec lib _ _ (by norm_num)
    (detInner_spec lib _ _ (by norm_num)
      (detInner_spec lib _ _ (by norm_num) dims_detArrays0).1).1).1

theorem detArrays_calc_unchanged (lib : SDLib) :
    (DetProperties.detArrays lib).calc_detspeed =
      DetProperties.detArrays0.calc_detspeed := by
  rw [detArrays_unfold]
  have h0 := @detInner_spec lib 0 (DetProperties.inittemp.getD 0 0)
    (DetProperties.initpress.getD 0 0) (by norm_num)
    DetProperties.detArrays0 dims_detArrays0
  have h1 := @detInner_spec lib 1 (DetProperties.inittemp.getD 1 0)
    (DetProperties.initpress.getD 1 0) (by norm_num) _ h0.1
  have h2 := @detInner_spec lib 2 (DetProperties.inittemp.getD 2 0)
    (DetProperties.initpress.getD 2 0) (by norm_num) _ h1.1
  exact h2.2.2.1.trans (h1.2.2.1.trans h0.2.2.1)

theorem detArrays_detionation_unchanged (lib : SDLib) :
    (DetProperties.detArrays lib).detionation_speed =
      DetProperties.detArrays0.detionation_speed := by
  rw [detArrays_unfold]
  have h0 := @detInner_spec lib 0 (DetProperties.inittemp.getD 0 0)
    (DetProperties.initpress.getD 0 0) (by norm_num)
    DetProperties.detArrays0 dims_detArrays0
  have h1 := @detInner_spec lib 1 (DetProperties.inittemp.getD 1 0)
    (DetProperties.initpress.getD 1 0) (by norm_num) _ h0.1
  have h2 := @detInner_spec lib 2 (DetProperties.inittemp.getD 2 0)
    (DetProperties.initpress.getD 2 0) (by norm_num) _ h1.1
  exact h2.2.1.trans (h1.2.1.trans h0.2.1)

/-- Entry-wise characterisation of the five filled result arrays. -/
theorem detArrays_entries (lib : SDLib) (IC idx : ℕ) (hIC : IC < 3)
    (hidx : idx < 30) :
    get2 (DetProperties.detArrays lib).product_temp IC idx =
      (DetProperties.detIter lib (DetProperties.inittemp.getD IC 0)
        (DetProperties.initpress.getD IC 0)
        (DetProperties.compositions.getD idx 0)).gas.T ∧
    get2 (DetProperties.detArrays lib).detonation_speed IC idx =
      (DetProperties.detIter lib (DetProperties.inittemp.getD IC 0)
        (DetProperties.initpress.getD IC 0)
        (DetProperties.compositions.getD idx 0)).D ∧
    get2 (DetProperties.detArrays lib).product_press IC idx =
      (DetProperties.detIter lib (DetProperties.inittemp.getD IC 0)
        (DetProperties.initpress.getD IC 0)
        (DetProperties.compositions.getD idx 0)).gas.P ∧
    get2 (DetProperties.detArrays lib).detonation_mach IC idx =
      (DetProperties.detIter lib (DetProperties.inittemp.getD IC 0)
        (DetProperties.initpress.getD IC 0)
        (DetProperties.compositions.getD idx 0)).mach ∧
    get2 (DetProperties.detArrays lib).product_specificheat IC idx =
      (DetProperties.detIter lib (DetProperties.inittemp.getD IC 0)
        (DetProperties.initpress.getD IC 0)
        (DetProperties.compositions.getD idx 0)).gammaf := by
  have h0 := @detInner_spec lib 0 (DetProperties.inittemp.getD 0 0)
    (DetProperties.initpress.getD 0 0) (by norm_num)
    DetProperties.detArrays0 dims_detArrays0
  have h1 := @detInner_spec lib 1 (DetProperties.inittemp.getD 1 0)
    (DetProperties.initpress.getD 1 0) (by norm_num) _ h0.1
  have h2 := @detInner_spec lib 2 (DetProperties.inittemp.getD 2 0)
    (DetProperties.initpress.getD 2 0) (by norm_num) _ h1.1
  rw [detArrays_unfold]
  interval_cases IC
  · obtain ⟨q1, q2, q3, q4, q5⟩ := h2.2.2.2.1 0 idx (by norm_num)
    obtain ⟨r1, r2, r3, r4, r5⟩ := h1.2.2.2.1 0 idx (by norm_num)
    obtain ⟨f1, f2, f3, f4, f5⟩ := h0.2.2.2.2 idx hidx
    exact ⟨(q1.trans r1).trans f1, (q2.trans r2).trans f2,
      (q3.trans r3).trans f3, (q4.trans r4).trans f4, (q5.trans r5).trans f5⟩
  · obtain ⟨q1, q2, q3, q4, q5⟩ := h2.2.2.2.1 1 idx (by norm_num)
    obtain ⟨f1, f2, f3, f4, f5⟩ := h1.2.2.2.2 idx hidx
    exact ⟨q1.trans f1, q2.trans f2, q3.trans f3, q4.trans f4, q5.trans f5⟩
  · exact h2.2.2.2.2 idx hidx

theorem getD_map_zero (f : ℚ → ℚ) (l : List ℚ) (hl : l ≠ []) :
    (l.map f).getD 0 0 = f (l.getD 0 0) := by
  cases l with
  | nil => exact absurd rfl hl
  | cons a t => rfl

theorem row_ne_pa_of_entry_ne (X : List (List ℚ)) (r : ℕ) (v : ℚ)
    (hv : get2 X r 0 = v) (hvne : v ≠ 0) :
    getRow X r ≠ DetProperties.property_array := by
  intro heq
  have h00 : get2 X r 0 = DetProperties.property_array.getD 0 0 :=
    congrArg (fun l : List ℚ => l.getD 0 0) heq
  rw [hv] at h00
  exact hvne (h00.trans rfl)

theorem maprow_ne_pa_of_entry_ne (X : List (List ℚ)) (r : ℕ) (f : ℚ → ℚ)
    (v : ℚ) (hne : getRow X r ≠ []) (hv : get2 X r 0 = v) (hfv : f v ≠ 0) :
    (getRow X r).map f ≠ DetProperties.property_array := by
  intro heq
  have h00 : ((getRow X r).map f).getD 0 0 =
      DetProperties.property_array.getD 0 0 :=
    congrArg (fun l : List ℚ => l.getD 0 0) heq
  rw [getD_map_zero f _ hne] at h00
  have hfv0 : f (get2 X r 0) = 0 := h00.trans rfl
  rw [hv] at hfv0
  exact hfv hfv0

theorem figname_eq :
    DemoCJstate.figname = "Figures/DetSpeedT300KP100kPa.png" := rfl

/-! ## Claims about the result arrays and the scripts' outputs -/

/-- C1 (amended): the five result arrays `detonation_speed`,
`detonation_mach`, `product_temp`, `product_press` and
`product_specificheat` are fixed-size (3 × 30) arrays indexed in parallel
with the parameter grid, filled in loop order with entry `[IC, idx]`
holding the scalar derived for the `IC`-th `(temperature, pressure)` pair
and `idx`-th composition, and their rows are exactly the data consumed by
the plotting calls after the loop; the also-allocated `calc_detspeed` and
`detionation_speed` arrays, by contrast, are never written (they keep
their all-zero allocation) and are not consumed by any plotting call. -/
theorem c1_result_arrays (lib : SDLib) (IC idx : ℕ) (hIC : IC < 3)
    (hidx : idx < 30) :
    get2 (DetProperties.detArrays lib).product_temp IC idx =
      (DetProperties.detIter lib (DetProperties.inittemp.getD IC 0)
        (DetProperties.initpress.getD IC 0)
        (DetProperties.compositions.getD idx 0)).gas.T ∧
    get2 (DetProperties.detArrays lib).detonation_speed IC idx =
      (DetProperties.detIter lib (DetProperties.inittemp.getD IC 0)
        (DetProperties.initpress.getD IC 0)
        (DetProperties.compositions.getD idx 0)).D ∧
    get2 (DetProperties.detArrays lib).product_press IC idx =
      (DetProperties.detIter lib (DetProperties.inittemp.getD IC 0)
        (DetProperties.initpress.getD IC 0)
        (DetProperties.compositions.getD idx 0)).gas.P ∧
    get2 (DetProperties.detArrays lib).detonation_mach IC idx =
      (DetProperties.detIter lib (DetProperties.inittemp.getD IC 0)
        (DetProperties.initpress.getD IC 0)
        (DetProperties.compositions.getD idx 0)).mach ∧
    get2 (DetProperties.detArrays lib).product_specificheat IC idx =
      (DetProperties.detIter lib (DetProperties.inittemp.getD IC 0)
        (DetProperties.initpress.getD IC 0)
        (DetProperties.compositions.getD idx 0)).gammaf ∧
    DimsA (DetProperties.detArrays lib) ∧
    (DetProperties.detArrays lib).detionation_speed =
      DetProperties.detArrays0.detionation_speed ∧
    (DetProperties.detArrays lib).calc_detspeed =
      DetProperties.detArrays0.calc_detspeed ∧
    (DetProperties.detRunEffects lib).filterMap plotOf =
      [(DetProperties.compositions,
          getRow (DetProperties.detArrays lib).detonation_speed 0),
       (DetProperties.compositions,
          getRow (DetProperties.detArrays lib).detonation_speed 1),
       (DetProperties.compositions,
          getRow (DetProperties.detArrays lib).detonation_speed 2),
       (DetProperties.compositions,
          getRow (DetProperties.detArrays lib).product_temp 0),
       (DetProperties.compositions,
          getRow (DetProperties.detArrays lib).product_temp 1),
       (DetProperties.compositions,
          getRow (DetProperties.detArrays lib).product_temp 2),
       (DetProperties.compositions,
          (getRow (DetProperties.detArrays lib).product_press 0).map
            fun x => x / 101325),
       (DetProperties.compositions,
          (getRow (DetProperties.detArrays lib).product_press 1).map
            fun x => x / 101325),
       (DetProperties.compositions,
          (getRow (DetProperties.detArrays lib).product_press 2).map
            fun x => x / 101325),
       (DetProperties.compositions,
          getRow (DetProperties.detArrays lib).detonation_mach 0),
       (DetProperties.compositions,
          getRow (DetProperties.detArrays lib).detonation_mach 1),
       (DetProperties.compositions,
          getRow (DetProperties.detArrays lib).detonation_mach 2),
       (DetProperties.compositions,
          getRow (DetProperties.detArrays lib).product_specificheat 0),
       (DetProperties.compositions,
          getRow (DetProperties.detArrays lib).product_specificheat 1),
       (DetProperties.compositions,
          getRow (DetProperties.detArrays lib).product_specificheat 2)] := by
  obtain ⟨e1, e2, e3, e4, e5⟩ := detArrays_entries lib IC idx hIC hidx
  exact ⟨e1, e2, e3, e4, e5, dims_detArrays lib,
    detArrays_detionation_unchanged lib, detArrays_calc_unchanged lib,
    detRun_plots lib⟩

/-- Witness for C1 at the constant library model and grid point `(0, 0)`. -/
theorem c1_result_arrays_witness :
    get2 (DetProperties.detArrays constLib).product_temp 0 0 =
      (DetProperties.detIter constLib (DetProperties.inittemp.getD 0 0)
        (DetProperties.initpress.getD 0 0)
        (DetProperties.compositions.getD 0 0)).gas.T ∧
    (DetProperties.detArrays constLib).calc_detspeed =
      DetProperties.detArrays0.calc_detspeed := by
  have h := c1_result_arrays constLib 0 0 (by norm_num) (by norm_num)
  exact ⟨h.1, h.2.2.2.2.2.2.2.1⟩

/-- Counterexample to C1 as stated: under the constant library model the
`calc_detspeed` array still equals its all-zero allocation after the
sweep (so entry `[0,0]` does not hold the derived scalar `Dcalc`, which
is nonzero), and no plotting call consumes any row of `calc_detspeed`. -/
theorem c1_counterexample :
    (DetProperties.detArrays constLib).calc_detspeed =
      DetProperties.detArrays0.calc_detspeed ∧
    (DetProperties.detArrays constLib).detionation_speed =
      DetProperties.detArrays0.detionation_speed ∧
    get2 (DetProperties.detArrays constLib).calc_detspeed 0 0 = 0 ∧
    (DetProperties.detIter constLib (DetProperties.inittemp.getD 0 0)
      (DetProperties.initpress.getD 0 0)
      (DetProperties.compositions.getD 0 0)).Dcalc ≠ 0 ∧
    ∀ pr ∈ (DetProperties.detRunEffects constLib).filterMap plotOf,
      pr.2 ≠ getRow (DetProperties.detArrays constLib).calc_detspeed 0 := by
  have hcalc := detArrays_calc_unchanged constLib
  have hdet := detArrays_detionation_unchanged constLib
  have hrow : getRow (DetProperties.detArrays constLib).calc_detspeed 0 =
      DetProperties.property_array := by
    unfold getRow
    rw [hcalc]
    rfl
  have hdims := dims_detArrays constLib
  have hent := detArrays_entries constLib
  have hpne : ∀ r : ℕ, r < 3 →
      getRow (DetProperties.detArrays constLib).product_press r ≠ [] := by
    intro r hr hcon
    have hlen := dims_row_len hdims.2.2.2.2.1 hr
    unfold getRow at hcon
    rw [hcon] at hlen
    simp at hlen
  refine ⟨hcalc, hdet, by rw [hcalc]; rfl, ?_, ?_⟩
  · norm_num [DetProperties.detIter, constLib]
  · intro pr hpr
    rw [detRun_plots] at hpr
    rw [hrow]
    simp only [List.mem_cons, List.not_mem_nil, or_false] at hpr
    rcases hpr with rfl|rfl|rfl|rfl|rfl|rfl|rfl|rfl|rfl|rfl|rfl|rfl|rfl|rfl|rfl
    · exact row_ne_pa_of_entry_ne _ _ _
        (hent 0 0 (by norm_num) (by norm_num)).2.1
        (by norm_num [DetProperties.detIter, constLib])
    · exact row_ne_pa_of_entry_ne _ _ _
        (hent 1 0 (by norm_num) (by norm_num)).2.1
        (by norm_num [DetProperties.detIter, constLib])
    · exact row_ne_pa_of_entry_ne _ _ _
        (hent 2 0 (by norm_num) (by norm_num)).2.1
        (by norm_num [DetProperties.detIter, constLib])
    · exact row_ne_pa_of_entry_ne _ _ _
        (hent 0 0 (by norm_num) (by norm_num)).1
        (by norm_num [DetProperties.detIter, constLib])
    · exact row_ne_pa_of_entry_ne _ _ _
        (hent 1 0 (by norm_num) (by norm_num)).1
        (by norm_num [DetProperties.detIter, constLib])
    · exact row_ne_pa_of_entry_ne _ _ _
        (hent 2 0 (by norm_num) (by norm_num)).1
        (by norm_num [DetProperties.detIter, constLib])
    · exact maprow_ne_pa_of_entry_ne _ _ _ _ (hpne 0 (by norm_num))
        (hent 0 0 (by norm_num) (by norm_num)).2.2.1
        (by norm_num [DetProperties.detIter, constLib])
    · exact maprow_ne_pa_of_entry_ne _ _ _ _ (hpne 1 (by norm_num))
        (hent 1 0 (by norm_num) (by norm_num)).2.2.1
        (by norm_num [DetProperties.detIter, constLib])
    · exact maprow_ne_pa_of_entry_ne _ _ _ _ (hpne 2 (by norm_num))
        (hent 2 0 (by norm_num) (by norm_num)).2.2.1
        (by norm_num [DetProperties.detIter, constLib])
    · exact row_ne_pa_of_entry_ne _ _ _
        (hent 0 0 (by norm_num) (by norm_num)).2.2.2.1
        (by norm_num [DetProperties.detIter, constLib])
    · exact row_ne_pa_of_entry_ne _ _ _
        (hent 1 0 (by norm_num) (by norm_num)).2.2.2.1
        (by norm_num [DetProperties.detIter, constLib])
    · exact row_ne_pa_of_entry_ne _ _ _
        (hent 2 0 (by norm_num) (by norm_num)).2.2.2.1
        (by norm_num [DetProperties.detIter, constLib])
    · exact row_ne_pa_of_entry_ne _ _ _
        (hent 0 0 (by norm_num) (by norm_num)).2.2.2.2
        (by norm_num [DetProperties.detIter, constLib])
    · exact row_ne_pa_of_entry_ne _ _ _
        (hent 1 0 (by norm_num) (by norm_num)).2.2.2.2
        (by norm_num [DetProperties.detIter, constLib])
    · exact row_ne_pa_of_entry_ne _ _ _
        (hent 2 0 (by norm_num) (by norm_num)).2.2.2.2
        (by norm_num [DetProperties.detIter, constLib])

/-- C7: the only outputs of the scripts are formatted text on stdout and
PNG figure files under the fixed relative directory `Figures/`:
`DetProperties.py` writes exactly its five figures, `demo_CJstate.py`
exactly one, `ZNDDetPostShock.py` none (its effects are all stdout
prints), and every written figure path is of the form
`"Figures/" ++ stem ++ ".png"`. -/
theorem c7_outputs_only_stdout_and_figures (lib : SDLib) :
    (DetProperties.detRunEffects lib).filterMap savefigOf =
      ["Figures/DetSpeed.png", "Figures/DetTemp.png", "Figures/DetPress.png",
       "Figures/DetMach.png", "Figures/DetSpecHeat.png"] ∧
    (DemoCJstate.demoRunEffects lib).filterMap savefigOf =
      ["Figures/DetSpeedT300KP100kPa.png"] ∧
    (ZND.zndRunEffects lib).filterMap savefigOf = [] ∧
    (∀ e ∈ ZND.zndRunEffects lib, isStdout e = true) ∧
    (∀ p, (p ∈ (DetProperties.detRunEffects lib).filterMap savefigOf ∨
           p ∈ (DemoCJstate.demoRunEffects lib).filterMap savefigOf) →
      ∃ stem, p = "Figures/" ++ stem ++ ".png") := by
  have hdemo : (DemoCJstate.demoRunEffects lib).filterMap savefigOf =
      ["Figures/DetSpeedT300KP100kPa.png"] :=
    (demoRun_savefigs lib).trans (by rw [figname_eq])
  refine ⟨detRun_savefigs lib, hdemo, zndRun_no_savefig lib, ?_, ?_⟩
  · intro e he
    simp only [ZND.zndRunEffects, List.mem_cons, List.not_mem_nil, or_false]
      at he
    rcases he with rfl|rfl|rfl|rfl|rfl|rfl <;> rfl
  · intro p hp
    rw [detRun_savefigs lib] at hp
    rw [hdemo] at hp
    simp only [List.mem_cons, List.not_mem_nil, or_false] at hp
    rcases hp with (rfl|rfl|rfl|rfl|rfl) | rfl
    · exact ⟨"DetSpeed", rfl⟩
    · exact ⟨"DetTemp", rfl⟩
    · exact ⟨"DetPress", rfl⟩
    · exact ⟨"DetMach", rfl⟩
    · exact ⟨"DetSpecHeat", rfl⟩
    · exact ⟨"DetSpeedT300KP100kPa", rfl⟩

/-- Witness for C7 at the constant library model, exercising the inner
membership hypotheses at the first figure path. -/
theorem c7_outputs_witness :
    (DetProperties.detRunEffects constLib).filterMap savefigOf =
      ["Figures/DetSpeed.png", "Figures/DetTemp.png", "Figures/DetPress.png",
       "Figures/DetMach.png", "Figures/DetSpecHeat.png"] ∧
    (∃ stem, "Figures/DetSpeed.png" = "Figures/" ++ stem ++ ".png") := by
  have h := c7_outputs_only_stdout_and_figures constLib
  refine ⟨h.1, ?_⟩
  exact h.2.2.2.2 "Figures/DetSpeed.png" (Or.inl (by rw [h.1]; simp))

/-- C8: with every external library call modelled as a pure function,
each script is deterministic: the same library model yields identical
effect traces, result arrays and figure file names, and the figure file
names are the fixed constants determined by the hardcoded inputs. -/
theorem c8_deterministic_runs (lib1 lib2 : SDLib) (h : lib1 = lib2) :
    DetProperties.detRunEffects lib1 = DetProperties.detRunEffects lib2 ∧
    DetProperties.detArrays lib1 = DetProperties.detArrays lib2 ∧
    DemoCJstate.demoRunEffects lib1 = DemoCJstate.demoRunEffects lib2 ∧
    DemoCJstate.demoSpeeds lib1 = DemoCJstate.demoSpeeds lib2 ∧
    ZND.zndRunEffects lib1 = ZND.zndRunEffects lib2 ∧
    ZND.det_time lib1 = ZND.det_time lib2 ∧
    (DetProperties.detRunEffects lib1).filterMap savefigOf =
      ["Figures/DetSpeed.png", "Figures/DetTemp.png", "Figures/DetPress.png",
       "Figures/DetMach.png", "Figures/DetSpecHeat.png"] ∧
    (DemoCJstate.demoRunEffects lib1).filterMap savefigOf =
      ["Figures/DetSpeedT300KP100kPa.png"] := by
  subst h
  exact ⟨rfl, rfl, rfl, rfl, rfl, rfl, detRun_savefigs lib1,
    (demoRun_savefigs lib1).trans (by rw [figname_eq])⟩

/-- Witness for C8: two runs with the constant library model coincide. -/
theorem c8_deterministic_runs_witness :
    DetProperties.detRunEffects constLib = DetProperties.detRunEffects constLib ∧
    (DemoCJstate.demoRunEffects constLib).filterMap savefigOf =
      ["Figures/DetSpeedT300KP100kPa.png"] := by
  have h := c8_deterministic_runs constLib constLib rfl
  exact ⟨h.1, h.2.2.2.2.2.2.2⟩

/-! ## Error-propagation lemmas for the fallible model -/

theorem foldlM_cons_error {α β ε : Type} (f : β → α → Except ε β) (x : α)
    (l : List α) (s0 : β) (e : ε) (h : f s0 x = Except.error e) :
    List.foldlM f s0 (x :: l) = Except.error e := by
  rw [List.foldlM_cons, h]
  rfl

theorem foldlM_ok_then_error {α β ε : Type} (f : β → α → Except ε β) :
    ∀ (l1 : List α) (x : α) (l2 : List α) (s0 s : β) (e : ε),
      List.foldlM f s0 l1 = Except.ok s → f s x = Except.error e →
      List.foldlM f s0 (l1 ++ x :: l2) = Except.error e := by
  intro l1
  induction l1 with
  | nil =>
      intro x l2 s0 s e h1 h2
      have hs : s0 = s := by
        have h1' : Except.ok s0 = (Except.ok s : Except ε β) := h1
        cases h1'
        rfl
      subst hs
      rw [List.nil_append]
      exact foldlM_cons_error f x l2 s0 e h2
  | cons a l1 ih =>
      intro x l2 s0 s e h1 h2
      rw [List.foldlM_cons] at h1
      cases hfa : f s0 a with
      | error e' =>
          rw [hfa] at h1
          have hcontra : (Except.error e' : Except ε β) = Except.ok s := h1
          cases hcontra
      | ok s1 =>
          rw [hfa] at h1
          have h1' : List.foldlM f s1 l1 = Except.ok s := h1
          rw [List.cons_append, List.foldlM_cons, hfa]
          exact ih x l2 s1 s e h1' h2

theorem scanLoopE_error {ε : Type} (advance : ℚ → Except ε ℚ) (thresh : ℚ) :
    ∀ (pre : List ℚ) (t : ℚ) (post : List ℚ) (d : ℚ) (e : ε),
      (∀ s ∈ pre, ∃ Tv, advance s = Except.ok Tv ∧ ¬ thresh < Tv) →
      advance t = Except.error e →
      ZND.scanLoopE advance thresh (pre ++ t :: post) d = Except.error e := by
  intro pre
  induction pre with
  | nil =>
      intro t post d e _ herr
      rw [List.nil_append]
      show (do
        let T ← advance t
        if thresh < T then pure t else ZND.scanLoopE advance thresh post t) =
          Except.error e
      rw [herr]
      rfl
  | cons a pre ih =>
      intro t post d e hpre herr
      obtain ⟨Tv, hok, hlt⟩ := hpre a (List.mem_cons_self a pre)
      rw [List.cons_append]
      show (do
        let T ← advance a
        if thresh < T then pure a
        else ZND.scanLoopE advance thresh (pre ++ t :: post) a) =
          Except.error e
      rw [hok]
      show (if thresh < Tv then pure a
        else ZND.scanLoopE advance thresh (pre ++ t :: post) a) = Except.error e
      rw [if_neg hlt]
      exact ih t post a e (fun s hs => hpre s (List.mem_cons_of_mem a hs)) herr

theorem enum_inittemp_eq :
    List.enum DetProperties.inittemp = [(0, (300 : ℚ)), (1, 300), (2, 600)] :=
  rfl

theorem enum_compositions_eq :
    List.enum DetProperties.compositions =
      (0, DetProperties.compositions.getD 0 0) ::
        List.enumFrom 1 DetProperties.compositions.tail := rfl

/-- C5: no error handling exists: when an external call raises, the
error propagates unhandled and aborts the script, with no retry and no
recovery path — shown for every call site of the ZND script, for a
failing iteration at any grid point of the `DetProperties.py` double
sweep (after any prefix of successful iterations), and for a failing
iteration (after any prefix of successful ones) of `demo_CJstate.py`. -/
theorem c5_no_error_handling {ε : Type} (lib : SDLibE ε) (e : ε) :
    (lib.Solution ZND.mech ZND.inittemp (ZND.initpress * one_atm) ZND.q =
        Except.error e → ZND.zndRunE lib = Except.error e) ∧
    (∀ g, lib.Solution ZND.mech ZND.inittemp (ZND.initpress * one_atm) ZND.q =
        Except.ok g →
      lib.CJspeed (ZND.initpress * one_atm) ZND.inittemp ZND.q ZND.mech false =
        Except.error e →
      ZND.zndRunE lib = Except.error e) ∧
    (∀ g r, lib.Solution ZND.mech ZND.inittemp (ZND.initpress * one_atm) ZND.q =
        Except.ok g →
      lib.CJspeed (ZND.initpress * one_atm) ZND.inittemp ZND.q ZND.mech false =
        Except.ok r →
      lib.PostShock_fr r.speed (ZND.initpress * one_atm) ZND.inittemp ZND.q
          ZND.mech = Except.error e →
      ZND.zndRunE lib = Except.error e) ∧
    (∀ g r ps pre t post,
      lib.Solution ZND.mech ZND.inittemp (ZND.initpress * one_atm) ZND.q =
        Except.ok g →
      lib.CJspeed (ZND.initpress * one_atm) ZND.inittemp ZND.q ZND.mech false =
        Except.ok r →
      lib.PostShock_fr r.speed (ZND.initpress * one_atm) ZND.inittemp ZND.q
          ZND.mech = Except.ok ps →
      ZND.timesteps = pre ++ t :: post →
      (∀ s ∈ pre, ∃ Tv, lib.reactorAdvance ps s = Except.ok Tv ∧
        ¬ ps.T + 150 < Tv) →
      lib.reactorAdvance ps t = Except.error e →
      ZND.zndRunE lib = Except.error e) ∧
    (∀ (preO : List (ℕ × ℚ)) (pO : ℕ × ℚ) (postO : List (ℕ × ℚ))
        (B : DetProperties.DetArrays) (preI : List (ℕ × ℚ)) (pI : ℕ × ℚ)
        (postI : List (ℕ × ℚ)) (C : DetProperties.DetArrays),
      List.enum DetProperties.inittemp = preO ++ pO :: postO →
      List.foldlM (DetProperties.detRowE lib) DetProperties.detArrays0 preO =
        Except.ok B →
      List.enum DetProperties.compositions = preI ++ pI :: postI →
      List.foldlM (DetProperties.detRowStepE lib pO.1) B preI = Except.ok C →
      DetProperties.detIterE lib (DetProperties.inittemp.getD pO.1 0)
        (DetProperties.initpress.getD pO.1 0) pI.2 = Except.error e →
      DetProperties.detArraysE lib = Except.error e) ∧
    (∀ (pre : List (ℕ × ℚ)) (x : ℕ × ℚ) (post : List (ℕ × ℚ)) (B : List ℚ),
      List.enum DemoCJstate.compositions = pre ++ x :: post →
      List.foldlM (fun a p => do
          let s ← DemoCJstate.demoIterE lib p.2
          pure (a.set p.1 s)) (npZerosLike DemoCJstate.compositions) pre =
        Except.ok B →
      DemoCJstate.demoIterE lib x.2 = Except.error e →
      DemoCJstate.demoSpeedsE lib = Except.error e) := by
  refine ⟨?_, ?_, ?_, ?_, ?_, ?_⟩
  · intro h
    unfold ZND.zndRunE
    rw [h]
    rfl
  · intro g hg hcj
    unfold ZND.zndRunE
    rw [hg, hcj]
    rfl
  · intro g r hg hcj hps
    unfold ZND.zndRunE
    rw [hg, hcj]
    show (do
      let postshock ← lib.PostShock_fr r.speed (ZND.initpress * one_atm)
        ZND.inittemp ZND.q ZND.mech
      ZND.scanLoopE (lib.reactorAdvance postshock) (postshock.T + 150)
        ZND.timesteps 0) = Except.error e
    rw [hps]
    rfl
  · intro g r ps pre t post hg hcj hps hsplit hpre herr
    unfold ZND.zndRunE
    rw [hg, hcj]
    show (do
      let postshock ← lib.PostShock_fr r.speed (ZND.initpress * one_atm)
        ZND.inittemp ZND.q ZND.mech
      ZND.scanLoopE (lib.reactorAdvance postshock) (postshock.T + 150)
        ZND.timesteps 0) = Except.error e
    rw [hps, hsplit]
    exact scanLoopE_error (lib.reactorAdvance ps) (ps.T + 150) pre t post 0 e
      hpre herr
  · intro preO pO postO B preI pI postI C hsplitO houter hsplitI hinner herr
    unfold DetProperties.detArraysE
    rw [hsplitO]
    refine foldlM_ok_then_error _ preO pO postO _ B e houter ?_
    unfold DetProperties.detRowE
    rw [hsplitI]
    refine foldlM_ok_then_error _ preI pI postI _ C e hinner ?_
    unfold DetProperties.detRowStepE
    rw [herr]
    rfl
  · intro pre x post B hsplit hpre herr
    unfold DemoCJstate.demoSpeedsE
    rw [hsplit]
    refine foldlM_ok_then_error _ pre x post _ B e hpre ?_
    dsimp only
    rw [herr]
    rfl

/-- Witness for C5 at a library model that fails on every call. -/
theorem c5_no_error_handling_witness :
    ZND.zndRunE failLib = Except.error "solver failure" ∧
    DetProperties.detArraysE failLib = Except.error "solver failure" ∧
    DemoCJstate.demoSpeedsE failLib = Except.error "solver failure" := by
  have h := c5_no_error_handling failLib "solver failure"
  refine ⟨h.1 rfl, ?_, ?_⟩
  · exact h.2.2.2.2.1 [] (0, 300) [(1, 300), (2, 600)]
      DetProperties.detArrays0 [] (0, DetProperties.compositions.getD 0 0)
      (List.enumFrom 1 DetProperties.compositions.tail)
      DetProperties.detArrays0 (by rw [enum_inittemp_eq]; rfl) rfl
      (by rw [enum_compositions_eq]; rfl) rfl rfl
  · exact h.2.2.2.2.2 [] (0, DemoCJstate.compositions.getD 0 0)
      (List.enumFrom 1 DemoCJstate.compositions.tail)
      (npZerosLike DemoCJstate.compositions) rfl rfl rfl
